import Mathlib

/-! # Pro-Mata database seed script

A shallow embedding of `docker/migration/prisma/seed.js`: the body of `main`, the top-level
`main().catch(...).finally(...)` chain, and the parts of the runtime and of the persistence
client that the script relies on.

* The store is five keyed tables (`user`, `centro`, `accommodation`, `activityType`,
  `systemSetting`), one per Prisma delegate used by the script.
* A run is deterministic once the behaviour of its surroundings is fixed; that behaviour is
  the record `Env` (which upserts reject, what `new Date()` returns, which identifiers the
  store generates, whether the teardown rejects).
* Everything the script does that can be observed from outside is appended to a trace of
  `Event`s: console lines, upsert calls and their results, the teardown call, `process.exit`.
-/

namespace Seed

/-! ## Data model -/

/-- Server-generated identifier of a row. -/
abbrev Id := Nat

/-- Value of `new Date()`, in milliseconds since the epoch. -/
abbrev Timestamp := Nat

/-- Decimal numeric literal as written in the source: `-29.4494` is `⟨-294494, 4⟩`,
`150.00` is `⟨15000, 2⟩`. -/
structure Decimal where
  unscaled : Int
  scale : Nat
  deriving DecidableEq, Repr

/-- The `coordinates` object of a centro. -/
structure Coordinates where
  latitude : Decimal
  longitude : Decimal
  deriving DecidableEq, Repr

/-- Fields of a `user` record (the shape of the create clause at lines 14-20). -/
structure User where
  email : String
  name : String
  role : String
  isActive : Bool
  createdAt : Timestamp
  deriving DecidableEq, Repr

/-- Fields of a `centro` record (create clause at lines 28-39). -/
structure Centro where
  name : String
  slug : String
  description : String
  location : String
  coordinates : Coordinates
  isActive : Bool
  createdAt : Timestamp
  deriving DecidableEq, Repr

/-- Fields of an `accommodation` record (create clauses at lines 48-58, 63-73, 78-88). -/
structure Accommodation where
  identifier : String
  name : String
  description : String
  capacity : Nat
  type : String
  amenities : List String
  centroId : Id
  isActive : Bool
  pricePerNight : Decimal
  deriving DecidableEq, Repr

/-- Fields of an `activityType` record (create clauses at lines 98-107, 112-121, 126-135). -/
structure ActivityType where
  name : String
  slug : String
  description : String
  duration : Nat
  difficulty : String
  maxParticipants : Nat
  price : Decimal
  isActive : Bool
  deriving DecidableEq, Repr

/-- Scalar member of the JSON object stored in a system setting. -/
inductive JsonScalar
  | num (n : Int)
  | str (s : String)
  | bool (b : Bool)
  deriving DecidableEq, Repr

/-- Fields of a `systemSetting` record (create clause at lines 144-156); `value` is a JSON
object, kept as its list of members. -/
structure SystemSetting where
  key : String
  value : List (String × JsonScalar)
  description : String
  isActive : Bool
  deriving DecidableEq, Repr

/-- A stored record: the generated identifier and the fields. -/
structure Row (α : Type) where
  id : Id
  data : α
  deriving DecidableEq, Repr

/-- The state of the database: one table per model the script touches. -/
structure Store where
  user : List (Row User)
  centro : List (Row Centro)
  accommodation : List (Row Accommodation)
  activityType : List (Row ActivityType)
  systemSetting : List (Row SystemSetting)
  deriving DecidableEq, Repr

/-- The freshly initialised store. -/
def Store.empty : Store := ⟨[], [], [], [], []⟩

/-! ## The surroundings of a run -/

/-- The nine upsert call sites of `main`, in source order. -/
inductive Call
  | adminUser
  | centro
  | quarto001
  | quarto002
  | dormitorio001
  | trilhaEcologica
  | observacaoAves
  | pesquisaCientifica
  | bookingSettings
  deriving DecidableEq, Repr

/-- The five steps of `main`: the three single upserts and the two `Promise.all` batches. -/
def Call.step : Call → Nat
  | .adminUser => 1
  | .centro => 2
  | .quarto001 => 3
  | .quarto002 => 3
  | .dormitorio001 => 3
  | .trilhaEcologica => 4
  | .observacaoAves => 4
  | .pesquisaCientifica => 4
  | .bookingSettings => 5

/-- All call sites, in source order. -/
def Call.all : List Call :=
  [.adminUser, .centro, .quarto001, .quarto002, .dormitorio001,
   .trilhaEcologica, .observacaoAves, .pesquisaCientifica, .bookingSettings]

/-- What a promise can reject with: the failure of one upsert, or of the teardown. -/
inductive Err
  | upsert (c : Call)
  | disconnect
  deriving DecidableEq, Repr

/-- Behaviour of everything outside the script during one run.

* `rejects c`: the persistence client rejects the upsert issued at call site `c`;
* `lands c`: when a sibling in the same `Promise.all` batch rejects, whether the insert of
  the already dispatched upsert `c` still reaches the store;
* `dateNow n`: the value of the `n`-th evaluation of `new Date()`;
* `genId ids`: the identifier the store gives to a new row of a table that holds `ids`;
* `disconnectRejects`: `prisma.$disconnect()` rejects;
* `unhandledRejectionStatus`: the exit status the runtime gives a process whose promise
  chain ends rejected with no handler (`1` under the default policy of Node.js 15+). -/
structure Env where
  rejects : Call → Bool
  lands : Call → Bool
  dateNow : Nat → Timestamp
  genId : List Id → Id
  disconnectRejects : Bool
  unhandledRejectionStatus : Nat

/-- The `where`/`create` arguments of an upsert call, tagged with the model. -/
inductive UpsertArgs
  | user (whereEmail : String) (create : User)
  | centro (whereSlug : String) (create : Centro)
  | accommodation (whereIdentifier : String) (create : Accommodation)
  | activityType (whereSlug : String) (create : ActivityType)
  | systemSetting (whereKey : String) (create : SystemSetting)
  deriving DecidableEq, Repr

/-- A record returned by an upsert, tagged with the model. -/
inductive Record
  | user (r : Row User)
  | centro (r : Row Centro)
  | accommodation (r : Row Accommodation)
  | activityType (r : Row ActivityType)
  | systemSetting (r : Row SystemSetting)
  deriving DecidableEq, Repr

/-- Observable actions of the script. -/
inductive Event
  | log (line : String)
  | error (label : String) (e : Err)
  | call (c : Call) (args : UpsertArgs)
  | returned (c : Call) (r : Record)
  | threw (e : Err)
  | disconnect
  | exit (code : Nat)
  deriving DecidableEq, Repr

/-- The store together with what the script has done so far (oldest event first). -/
structure World where
  store : Store
  trace : List Event
  deriving DecidableEq, Repr

/-- Append one event to the trace. -/
def World.emit (w : World) (e : Event) : World :=
  { w with trace := w.trace ++ [e] }

/-- How a promise (or the process) ends: fulfilled with a value, rejected with an error, or
the process was terminated by `process.exit` while the promise was being computed. -/
inductive Settled (α : Type)
  | resolved (a : α)
  | rejected (e : Err)
  | exited (code : Nat)
  deriving DecidableEq, Repr

/-! ## The persistence client -/

/-- Modelled from the spec: the upsert of the persistence client (Prisma, an external
package) called with an empty `update` clause. It "inserts a record only if no existing
record matches the given unique key; otherwise leaves the existing record unchanged", and
returns the found or created record with its generated identifier. -/
def upsertRow {α : Type} (genId : List Id → Id) (unique : α → String)
    (table : List (Row α)) (whereKey : String) (create : α) : Row α × List (Row α) :=
  match table.find? (fun r => unique r.data == whereKey) with
  | some r => (r, table)
  | none => (⟨genId (table.map Row.id), create⟩, table ++ [⟨genId (table.map Row.id), create⟩])

/-- One model delegate of the client (`prisma.user`, `prisma.centro`, ...): its table in
the store, its unique key field, and how its arguments and records appear in the trace. -/
structure Delegate (α : Type) where
  table : Store → List (Row α)
  setTable : Store → List (Row α) → Store
  unique : α → String
  args : String → α → UpsertArgs
  record : Row α → Record

/-- The delegate `prisma.user`, keyed by `email`. -/
def prismaUser : Delegate User :=
  ⟨Store.user, fun s t => { s with user := t }, User.email, UpsertArgs.user, Record.user⟩

/-- The delegate `prisma.centro`, keyed by `slug`. -/
def prismaCentro : Delegate Centro :=
  ⟨Store.centro, fun s t => { s with centro := t }, Centro.slug, UpsertArgs.centro,
    Record.centro⟩

/-- The delegate `prisma.accommodation`, keyed by `identifier`. -/
def prismaAccommodation : Delegate Accommodation :=
  ⟨Store.accommodation, fun s t => { s with accommodation := t }, Accommodation.identifier,
    UpsertArgs.accommodation, Record.accommodation⟩

/-- The delegate `prisma.activityType`, keyed by `slug`. -/
def prismaActivityType : Delegate ActivityType :=
  ⟨Store.activityType, fun s t => { s with activityType := t }, ActivityType.slug,
    UpsertArgs.activityType, Record.activityType⟩

/-- The delegate `prisma.systemSetting`, keyed by `key`. -/
def prismaSystemSetting : Delegate SystemSetting :=
  ⟨Store.systemSetting, fun s t => { s with systemSetting := t }, SystemSetting.key,
    UpsertArgs.systemSetting, Record.systemSetting⟩

/-- The effect of one upsert on the store. -/
def Delegate.write {α : Type} (d : Delegate α) (env : Env) (whereKey : String) (create : α)
    (s : Store) : Store :=
  d.setTable s (upsertRow env.genId d.unique (d.table s) whereKey create).2

/-- The record one upsert returns. -/
def Delegate.found {α : Type} (d : Delegate α) (env : Env) (whereKey : String) (create : α)
    (s : Store) : Row α :=
  (upsertRow env.genId d.unique (d.table s) whereKey create).1

/-- The awaited call `await prisma.<model>.upsert({ where, update: {}, create })` issued at
call site `c`: the call is recorded, then it either rejects (the store is left as it was) or
takes effect and returns the record. -/
def Delegate.upsert {α : Type} (d : Delegate α) (env : Env) (c : Call) (whereKey : String)
    (create : α) (w : World) : Settled (Row α) × World :=
  if env.rejects c then
    (.rejected (.upsert c),
      { store := w.store,
        trace := w.trace ++ [.call c (d.args whereKey create), .threw (.upsert c)] })
  else
    (.resolved (d.found env whereKey create w.store),
      { store := d.write env whereKey create w.store,
        trace := w.trace ++ [.call c (d.args whereKey create),
          .returned c (d.record (d.found env whereKey create w.store))] })

/-- One upsert of a `Promise.all` batch: its call site and its arguments. -/
structure Dispatch (α : Type) where
  call : Call
  whereKey : String
  create : α

/-- All upserts of a batch fulfil: they take effect and return in array order. -/
def Delegate.fulfilAll {α : Type} (d : Delegate α) (env : Env) :
    List (Dispatch α) → World → List (Row α) × World
  | [], w => ([], w)
  | p :: ps, w =>
    ((d.found env p.whereKey p.create w.store) ::
        (fulfilAll d env ps
          { store := d.write env p.whereKey p.create w.store,
            trace := w.trace ++
              [.returned p.call (d.record (d.found env p.whereKey p.create w.store))] }).1,
      (fulfilAll d env ps
          { store := d.write env p.whereKey p.create w.store,
            trace := w.trace ++
              [.returned p.call (d.record (d.found env p.whereKey p.create w.store))] }).2)

/-- The awaited batch `await Promise.all([prisma.<model>.upsert(...), ...])`. Every upsert
of the array is issued before anything is awaited. When none rejects the batch fulfils with
the records in array order. When one rejects the batch rejects with the error of the first
rejecting upsert; the other upserts are already in flight, and each of them that does not
reject itself reaches the store or not as `env.lands` says. -/
def Delegate.upsertAll {α : Type} (d : Delegate α) (env : Env) (ps : List (Dispatch α))
    (w : World) : Settled (List (Row α)) × World :=
  match ps.find? (fun p => env.rejects p.call) with
  | none =>
    (.resolved (d.fulfilAll env ps
        { w with trace := w.trace ++ ps.map (fun p => .call p.call (d.args p.whereKey p.create)) }).1,
      (d.fulfilAll env ps
        { w with trace := w.trace ++ ps.map (fun p => .call p.call (d.args p.whereKey p.create)) }).2)
  | some p =>
    (.rejected (.upsert p.call),
      { store := (ps.filter (fun q => !env.rejects q.call && env.lands q.call)).foldl
          (fun s q => d.write env q.whereKey q.create s) w.store,
        trace := w.trace ++ ps.map (fun p => .call p.call (d.args p.whereKey p.create))
          ++ [.threw (.upsert p.call)] })

/-- The teardown `await prisma.$disconnect()`. -/
def disconnect (env : Env) (w : World) : Settled Unit × World :=
  if env.disconnectRejects then
    (.rejected .disconnect, w.emit .disconnect)
  else
    (.resolved (), w.emit .disconnect)

/-! ## The runtime -/

/-- The call `process.exit(code)`: the process ends at once; nothing scheduled after it
runs. -/
def processExit {α : Type} (code : Nat) (w : World) : Settled α × World :=
  (.exited code, w.emit (.exit code))

/-- The promise method `p.catch(handler)`: the handler runs only when `p` rejects. -/
def thenCatch {α : Type} (p : Settled α × World) (handler : Err → World → Settled α × World) :
    Settled α × World :=
  match p with
  | (.rejected e, w) => handler e w
  | (.resolved a, w) => (.resolved a, w)
  | (.exited code, w) => (.exited code, w)

/-- The promise method `p.finally(handler)`: the handler runs when `p` settles, fulfilled or
rejected, and the outcome of `p` is passed on unless the handler itself rejects. It does not
run when the process has already exited. -/
def thenFinally {α : Type} (p : Settled α × World) (handler : World → Settled Unit × World) :
    Settled α × World :=
  match p with
  | (.exited code, w) => (.exited code, w)
  | (.resolved a, w) =>
    match handler w with
    | (.resolved _, w1) => (.resolved a, w1)
    | (.rejected e, w1) => (.rejected e, w1)
    | (.exited code, w1) => (.exited code, w1)
  | (.rejected e, w) =>
    match handler w with
    | (.resolved _, w1) => (.rejected e, w1)
    | (.rejected e1, w1) => (.rejected e1, w1)
    | (.exited code, w1) => (.exited code, w1)

/-- The exit status of the process: the argument of `process.exit` when it was called, `0`
when the script ran to its end, and the runtime's status for an unhandled rejection when the
promise chain ends rejected. -/
def exitStatus {α : Type} (env : Env) : Settled α → Nat
  | .exited code => code
  | .resolved _ => 0
  | .rejected _ => env.unhandledRejectionStatus

/-- The `await` of a promise inside an async function: on fulfilment the function goes on
with the value, on rejection the error is thrown to the enclosing handler. -/
def await {α β : Type} (p : Settled α × World) (k : α → World → Settled β × World) :
    Settled β × World :=
  match p with
  | (.resolved a, w) => k a w
  | (.rejected e, w) => (.rejected e, w)
  | (.exited code, w) => (.exited code, w)

/-! ## The seed data (the literal create clauses of `main`) -/

/-- Create clause of the admin user (lines 14-20); `createdAt` is `new Date()`. -/
def adminUserData (createdAt : Timestamp) : User :=
  { email := "admin@promata.com.br"
    name := "Administrador Pro-Mata"
    role := "ADMIN"
    isActive := true
    createdAt := createdAt }

/-- Create clause of the research centre (lines 28-39); `createdAt` is `new Date()`. -/
def centroData (createdAt : Timestamp) : Centro :=
  { name := "Centro de Pesquisas e Proteção da Natureza Pró-Mata"
    slug := "pro-mata-pucrs"
    description :=
      "Centro de pesquisa da PUCRS dedicado à conservação e pesquisa da Mata Atlântica"
    location := "São Francisco de Paula, RS"
    coordinates := { latitude := ⟨-294494, 4⟩, longitude := ⟨-503847, 4⟩ }
    isActive := true
    createdAt := createdAt }

/-- Create clause of `QUARTO-001` (lines 48-58); `centroId` is `centro.id`. -/
def quarto001Data (centroId : Id) : Accommodation :=
  { identifier := "QUARTO-001"
    name := "Quarto Individual 1"
    description := "Quarto individual com banheiro privativo"
    capacity := 1
    type := "INDIVIDUAL"
    amenities := ["wifi", "banheiro_privativo", "aquecimento"]
    centroId := centroId
    isActive := true
    pricePerNight := ⟨15000, 2⟩ }

/-- Create clause of `QUARTO-002` (lines 63-73); `centroId` is `centro.id`. -/
def quarto002Data (centroId : Id) : Accommodation :=
  { identifier := "QUARTO-002"
    name := "Quarto Duplo 1"
    description := "Quarto duplo com duas camas de solteiro"
    capacity := 2
    type := "DUPLO"
    amenities := ["wifi", "banheiro_privativo", "aquecimento", "varanda"]
    centroId := centroId
    isActive := true
    pricePerNight := ⟨22000, 2⟩ }

/-- Create clause of `DORMITORIO-001` (lines 78-88); `centroId` is `centro.id`. -/
def dormitorio001Data (centroId : Id) : Accommodation :=
  { identifier := "DORMITORIO-001"
    name := "Dormitório Compartilhado A"
    description := "Dormitório compartilhado com 6 camas"
    capacity := 6
    type := "COMPARTILHADO"
    amenities := ["wifi", "banheiro_compartilhado", "armarios"]
    centroId := centroId
    isActive := true
    pricePerNight := ⟨8000, 2⟩ }

/-- Create clause of `trilha-ecologica` (lines 98-107). -/
def trilhaEcologicaData : ActivityType :=
  { name := "Trilha Ecológica"
    slug := "trilha-ecologica"
    description := "Caminhada guiada pelas trilhas da mata"
    duration := 180
    difficulty := "MODERADO"
    maxParticipants := 15
    price := ⟨4500, 2⟩
    isActive := true }

/-- Create clause of `observacao-aves` (lines 112-121). -/
def observacaoAvesData : ActivityType :=
  { name := "Observação de Aves"
    slug := "observacao-aves"
    description := "Atividade de birdwatching com guia especializado"
    duration := 240
    difficulty := "FACIL"
    maxParticipants := 10
    price := ⟨6500, 2⟩
    isActive := true }

/-- Create clause of `pesquisa-cientifica` (lines 126-135). -/
def pesquisaCientificaData : ActivityType :=
  { name := "Pesquisa Científica"
    slug := "pesquisa-cientifica"
    description := "Participação em atividades de pesquisa científica"
    duration := 480
    difficulty := "AVANCADO"
    maxParticipants := 8
    price := ⟨12000, 2⟩
    isActive := true }

/-- Create clause of `booking_settings` (lines 144-156). -/
def bookingSettingsData : SystemSetting :=
  { key := "booking_settings"
    value :=
      [("maxAdvanceBookingDays", .num 365),
       ("minAdvanceBookingHours", .num 24),
       ("cancellationDeadlineHours", .num 48),
       ("defaultCheckInTime", .str "14:00"),
       ("defaultCheckOutTime", .str "11:00"),
       ("allowSameDayBooking", .bool false)]
    description := "Configurações gerais para reservas"
    isActive := true }

/-- The three upserts of the accommodation batch (lines 44-90). -/
def accommodationBatch (centroId : Id) : List (Dispatch Accommodation) :=
  [⟨.quarto001, "QUARTO-001", quarto001Data centroId⟩,
   ⟨.quarto002, "QUARTO-002", quarto002Data centroId⟩,
   ⟨.dormitorio001, "DORMITORIO-001", dormitorio001Data centroId⟩]

/-- The three upserts of the activity type batch (lines 94-137). -/
def activityTypeBatch : List (Dispatch ActivityType) :=
  [⟨.trilhaEcologica, "trilha-ecologica", trilhaEcologicaData⟩,
   ⟨.observacaoAves, "observacao-aves", observacaoAvesData⟩,
   ⟨.pesquisaCientifica, "pesquisa-cientifica", pesquisaCientificaData⟩]

/-! ## The script -/

/-- The body of the `try` block of `main` (lines 10-164). -/
def mainTry (env : Env) (w : World) : Settled Unit × World :=
  await (prismaUser.upsert env .adminUser "admin@promata.com.br"
      (adminUserData (env.dateNow 0)) w) fun adminUser w =>
  await (prismaCentro.upsert env .centro "pro-mata-pucrs" (centroData (env.dateNow 1))
      (w.emit (.log ("👤 Admin user created/updated: " ++ adminUser.data.email))))
    fun centro w =>
  await (prismaAccommodation.upsertAll env (accommodationBatch centro.id)
      (w.emit (.log ("🏢 Research center created/updated: " ++ centro.data.name))))
    fun accommodations w =>
  await (prismaActivityType.upsertAll env activityTypeBatch
      (w.emit (.log ("🛏️  Accommodations created/updated: " ++
        toString accommodations.length))))
    fun activityTypes w =>
  await (prismaSystemSetting.upsert env .bookingSettings "booking_settings"
      bookingSettingsData
      (w.emit (.log ("🔬 Activity types created/updated: " ++
        toString activityTypes.length))))
    fun _settings w =>
  (.resolved (),
    { w with trace := w.trace ++
        [.log "⚙️  System settings created/updated",
         .log "✅ Seed completado com sucesso!",
         .log ("👤 Admin: " ++ adminUser.data.email),
         .log ("🏢 Centro: " ++ centro.data.name),
         .log ("🛏️  Acomodações: " ++ toString accommodations.length),
         .log ("🔬 Tipos de atividade: " ++ toString activityTypes.length)] })

/-- The function `main` (lines 6-170): the opening line, the `try` block, and the `catch`
block that logs the error and throws it again. -/
def main (env : Env) (w : World) : Settled Unit × World :=
  thenCatch (mainTry env (w.emit (.log "🌱 Iniciando seed do banco de dados Pro-Mata...")))
    fun error w => (.rejected error, w.emit (.error "❌ Erro durante o seed:" error))

/-- The whole script (lines 172-179): `main()`, then the `.catch` handler that logs and
calls `process.exit(1)`, then the `.finally` handler that awaits the teardown. -/
def script (env : Env) (s : Store) : Settled Unit × World :=
  thenFinally
    (thenCatch (main env ⟨s, []⟩)
      fun e w => processExit 1 (w.emit (.error "❌ Seed falhou:" e)))
    fun w => disconnect env w

/-! ## Observations on a run -/

/-- The store a run of the script leaves behind. -/
def finalStore (env : Env) (s : Store) : Store :=
  (script env s).2.store

/-- The trace of a run of the script. -/
def runTrace (env : Env) (s : Store) : List Event :=
  (script env s).2.trace

/-- The exit status of a run of the script. -/
def runStatus (env : Env) (s : Store) : Nat :=
  exitStatus env (script env s).1

/-- How many times the teardown was invoked. -/
def disconnectCount (t : List Event) : Nat :=
  t.count .disconnect

/-- The call sites whose upsert was issued, in the order of issue. -/
def issued (t : List Event) : List Call :=
  t.filterMap fun e =>
    match e with
    | .call c _ => some c
    | _ => none

/-- A run in which the collaborator never fails; identifiers count up from 1. -/
def Env.ok (t0 t1 : Timestamp) : Env :=
  { rejects := fun _ => false
    lands := fun _ => true
    dateNow := fun n => if n = 0 then t0 else t1
    genId := fun ids => ids.length + 1
    disconnectRejects := false
    unhandledRejectionStatus := 1 }

/-! ## Specification vocabulary -/

/-- Some upsert of the run rejects. -/
def anyRejects (env : Env) : Bool :=
  Call.all.any env.rejects

/-- Some upsert of the batch rejects. -/
def batchRejects {α : Type} (env : Env) (ps : List (Dispatch α)) : Bool :=
  ps.any fun p => env.rejects p.call

/-- The upserts of a batch that reach the store: all of them when the batch fulfils, and
otherwise those that do not reject and still land. -/
def landing {α : Type} (env : Env) (ps : List (Dispatch α)) : List (Dispatch α) :=
  if batchRejects env ps then ps.filter (fun q => !env.rejects q.call && env.lands q.call)
  else ps

/-- The effect of a list of upserts on one table, in order. -/
def upsertRows {α : Type} (genId : List Id → Id) (unique : α → String)
    (ps : List (Dispatch α)) (table : List (Row α)) : List (Row α) :=
  ps.foldl (fun t q => (upsertRow genId unique t q.whereKey q.create).2) table

/-- The effect of a list of upserts of one delegate on the store, in order. -/
def Delegate.writeAll {α : Type} (d : Delegate α) (env : Env) (ps : List (Dispatch α))
    (s : Store) : Store :=
  ps.foldl (fun s q => d.write env q.whereKey q.create s) s

/-- The identifier of the record the centro upsert returns when it runs on store `s`. -/
def centroIdOf (env : Env) (s : Store) : Id :=
  (upsertRow env.genId Centro.slug s.centro "pro-mata-pucrs" (centroData (env.dateNow 1))).1.id

/-- The call sites a run issues, as a function of which upserts reject: a step is reached
only when no upsert of an earlier step rejected. -/
def issuedCalls (env : Env) : List Call :=
  .adminUser ::
    if env.rejects .adminUser then [] else
    .centro ::
      if env.rejects .centro then [] else
      .quarto001 :: .quarto002 :: .dormitorio001 ::
        if env.rejects .quarto001 || env.rejects .quarto002 || env.rejects .dormitorio001
        then [] else
        .trilhaEcologica :: .observacaoAves :: .pesquisaCientifica ::
          if env.rejects .trilhaEcologica || env.rejects .observacaoAves ||
            env.rejects .pesquisaCientifica
          then [] else [.bookingSettings]

/-- The store a run leaves behind, written as the composition of the upserts that reach
the store. -/
def seedEffect (env : Env) (s : Store) : Store :=
  if env.rejects .adminUser then s else
  if env.rejects .centro then
    prismaUser.write env "admin@promata.com.br" (adminUserData (env.dateNow 0)) s
  else if batchRejects env (accommodationBatch (centroIdOf env s)) then
    prismaAccommodation.writeAll env (landing env (accommodationBatch (centroIdOf env s)))
      (prismaCentro.write env "pro-mata-pucrs" (centroData (env.dateNow 1))
        (prismaUser.write env "admin@promata.com.br" (adminUserData (env.dateNow 0)) s))
  else if batchRejects env activityTypeBatch then
    prismaActivityType.writeAll env (landing env activityTypeBatch)
      (prismaAccommodation.writeAll env (accommodationBatch (centroIdOf env s))
        (prismaCentro.write env "pro-mata-pucrs" (centroData (env.dateNow 1))
          (prismaUser.write env "admin@promata.com.br" (adminUserData (env.dateNow 0)) s)))
  else if env.rejects .bookingSettings then
    prismaActivityType.writeAll env activityTypeBatch
      (prismaAccommodation.writeAll env (accommodationBatch (centroIdOf env s))
        (prismaCentro.write env "pro-mata-pucrs" (centroData (env.dateNow 1))
          (prismaUser.write env "admin@promata.com.br" (adminUserData (env.dateNow 0)) s)))
  else
    prismaSystemSetting.write env "booking_settings" bookingSettingsData
      (prismaActivityType.writeAll env activityTypeBatch
        (prismaAccommodation.writeAll env (accommodationBatch (centroIdOf env s))
          (prismaCentro.write env "pro-mata-pucrs" (centroData (env.dateNow 1))
            (prismaUser.write env "admin@promata.com.br" (adminUserData (env.dateNow 0)) s))))

/-- The event is an upsert call or the return of one. -/
def Event.isUpsert : Event → Bool
  | .call _ _ => true
  | .returned _ _ => true
  | _ => false

/-- The upsert calls and returns of a trace, in order. -/
def upsertEvents (t : List Event) : List Event :=
  t.filter Event.isUpsert

/-- The call events of a batch, in array order. -/
def callEvents {α : Type} (d : Delegate α) (ps : List (Dispatch α)) : List Event :=
  ps.map fun p => .call p.call (d.args p.whereKey p.create)

/-- The return events of a batch that fulfils on store `s`, in array order. -/
def returnedEvents {α : Type} (d : Delegate α) (env : Env) :
    List (Dispatch α) → Store → List Event
  | [], _ => []
  | p :: ps, s =>
    .returned p.call (d.record (d.found env p.whereKey p.create s)) ::
      returnedEvents d env ps (d.write env p.whereKey p.create s)

/-- The record the centro upsert returns when the run starts on store `s`. -/
def centroFound (env : Env) (s : Store) : Row Centro :=
  (upsertRow env.genId Centro.slug s.centro "pro-mata-pucrs" (centroData (env.dateNow 1))).1

/-- The upsert calls and returns of a run in which nothing rejects, starting on store `s`:
each call is followed by its return before the next step begins, the three calls of a batch
are issued together, and the accommodation create clauses carry the identifier of the record
the centro upsert returned. -/
def happyPath (env : Env) (s : Store) : List Event :=
  [.call .adminUser (.user "admin@promata.com.br" (adminUserData (env.dateNow 0))),
   .returned .adminUser (.user (upsertRow env.genId User.email s.user "admin@promata.com.br"
      (adminUserData (env.dateNow 0))).1),
   .call .centro (.centro "pro-mata-pucrs" (centroData (env.dateNow 1))),
   .returned .centro (.centro (centroFound env s)),
   .call .quarto001 (.accommodation "QUARTO-001" (quarto001Data (centroFound env s).id)),
   .call .quarto002 (.accommodation "QUARTO-002" (quarto002Data (centroFound env s).id)),
   .call .dormitorio001
      (.accommodation "DORMITORIO-001" (dormitorio001Data (centroFound env s).id))] ++
  returnedEvents prismaAccommodation env (accommodationBatch (centroFound env s).id)
    (prismaCentro.write env "pro-mata-pucrs" (centroData (env.dateNow 1))
      (prismaUser.write env "admin@promata.com.br" (adminUserData (env.dateNow 0)) s)) ++
  [.call .trilhaEcologica (.activityType "trilha-ecologica" trilhaEcologicaData),
   .call .observacaoAves (.activityType "observacao-aves" observacaoAvesData),
   .call .pesquisaCientifica (.activityType "pesquisa-cientifica" pesquisaCientificaData)] ++
  returnedEvents prismaActivityType env activityTypeBatch
    (prismaAccommodation.writeAll env (accommodationBatch (centroFound env s).id)
      (prismaCentro.write env "pro-mata-pucrs" (centroData (env.dateNow 1))
        (prismaUser.write env "admin@promata.com.br" (adminUserData (env.dateNow 0)) s))) ++
  [.call .bookingSettings (.systemSetting "booking_settings" bookingSettingsData),
   .returned .bookingSettings (.systemSetting
      (upsertRow env.genId SystemSetting.key s.systemSetting "booking_settings"
        bookingSettingsData).1)]

/-- A run in which exactly the upsert at call site `c` rejects (and no in-flight sibling of
its batch lands); the teardown, were it reached, would succeed. -/
def Env.failing (c : Call) : Env :=
  { rejects := fun c0 => decide (c0 = c)
    lands := fun _ => false
    dateNow := fun n => if n = 0 then 10 else 20
    genId := fun ids => ids.length + 1
    disconnectRejects := false
    unhandledRejectionStatus := 1 }

/-- A run in which every upsert succeeds and the teardown rejects, under the default policy
of the runtime for unhandled rejections. -/
def Env.teardownFails : Env :=
  { rejects := fun _ => false
    lands := fun _ => true
    dateNow := fun n => if n = 0 then 10 else 20
    genId := fun ids => ids.length + 1
    disconnectRejects := true
    unhandledRejectionStatus := 1 }

/-- The store a successful run leaves behind when it starts from the empty store: one row
per create clause, with the identifiers the store generates. -/
def seededStore (env : Env) : Store :=
  { user := [⟨env.genId [], adminUserData (env.dateNow 0)⟩]
    centro := [⟨env.genId [], centroData (env.dateNow 1)⟩]
    accommodation :=
      [⟨env.genId [], quarto001Data (env.genId [])⟩,
       ⟨env.genId [env.genId []], quarto002Data (env.genId [])⟩,
       ⟨env.genId [env.genId [], env.genId [env.genId []]],
          dormitorio001Data (env.genId [])⟩]
    activityType :=
      [⟨env.genId [], trilhaEcologicaData⟩,
       ⟨env.genId [env.genId []], observacaoAvesData⟩,
       ⟨env.genId [env.genId [], env.genId [env.genId []]], pesquisaCientificaData⟩]
    systemSetting := [⟨env.genId [], bookingSettingsData⟩] }

/-- Table `new` is table `old` followed by rows inserted for keys of `seeded` that no row of
`old` carries, at most one row per key: the rows of `old` are all still there, unchanged and
in place. -/
def Grown {α : Type} (unique : α → String) (seeded : List String) (old new : List (Row α)) :
    Prop :=
  ∃ added, new = old ++ added ∧
    (∀ r ∈ added, unique r.data ∈ seeded ∧ ∀ r0 ∈ old, unique r0.data ≠ unique r.data) ∧
    (added.map fun r => unique r.data).Nodup

/-- No two rows of a table carry the same unique key, in each of the five tables. -/
def Store.KeysUnique (s : Store) : Prop :=
  (s.user.map fun r => r.data.email).Nodup ∧
  (s.centro.map fun r => r.data.slug).Nodup ∧
  (s.accommodation.map fun r => r.data.identifier).Nodup ∧
  (s.activityType.map fun r => r.data.slug).Nodup ∧
  (s.systemSetting.map fun r => r.data.key).Nodup

/-- Every one of the nine seeded keys is carried by some row of its table. -/
def Store.HasSeededKeys (s : Store) : Prop :=
  "admin@promata.com.br" ∈ s.user.map (fun r => r.data.email) ∧
  "pro-mata-pucrs" ∈ s.centro.map (fun r => r.data.slug) ∧
  (∀ k ∈ ["QUARTO-001", "QUARTO-002", "DORMITORIO-001"],
    k ∈ s.accommodation.map (fun r => r.data.identifier)) ∧
  (∀ k ∈ ["trilha-ecologica", "observacao-aves", "pesquisa-cientifica"],
    k ∈ s.activityType.map (fun r => r.data.slug)) ∧
  "booking_settings" ∈ s.systemSetting.map (fun r => r.data.key)

/-- A store that was populated before the seeder existed: another research centre, and a
room `QUARTO-001` that belongs to it. -/
def Store.legacy : Store :=
  { user := []
    centro :=
      [⟨7, { name := "Centro Antigo"
             slug := "centro-antigo"
             description := "Centro cadastrado antes do seed"
             location := "Porto Alegre, RS"
             coordinates := { latitude := ⟨-300331, 4⟩, longitude := ⟨-512300, 4⟩ }
             isActive := true
             createdAt := 1 }⟩]
    accommodation := [⟨1, quarto001Data 7⟩]
    activityType := []
    systemSetting := [] }

/-- How many upsert calls and returns a run gets through, as a function of which upserts
reject: a rejected single upsert contributes its call only, a rejected batch its three
calls. -/
def upsertCount (env : Env) : Nat :=
  if env.rejects .adminUser then 1
  else if env.rejects .centro then 3
  else if env.rejects .quarto001 || env.rejects .quarto002 || env.rejects .dormitorio001
  then 7
  else if env.rejects .trilhaEcologica || env.rejects .observacaoAves ||
    env.rejects .pesquisaCientifica
  then 13
  else if env.rejects .bookingSettings then 17
  else 18

/-- The table that the upsert at call site `c` writes is the same in both stores. -/
def Call.sameTable (c : Call) (a b : Store) : Prop :=
  match c with
  | .adminUser => a.user = b.user
  | .centro => a.centro = b.centro
  | .quarto001 => a.accommodation = b.accommodation
  | .quarto002 => a.accommodation = b.accommodation
  | .dormitorio001 => a.accommodation = b.accommodation
  | .trilhaEcologica => a.activityType = b.activityType
  | .observacaoAves => a.activityType = b.activityType
  | .pesquisaCientifica => a.activityType = b.activityType
  | .bookingSettings => a.systemSetting = b.systemSetting

/-- The same run with every upsert succeeding. -/
def Env.succeeding (env : Env) : Env :=
  { env with rejects := fun _ => false }

/-- The store with the `createdAt` field of every user and centro row blanked. -/
def Store.eraseCreatedAt (s : Store) : Store :=
  { s with
    user := s.user.map fun r => { r with data := { r.data with createdAt := 0 } }
    centro := s.centro.map fun r => { r with data := { r.data with createdAt := 0 } } }

/-! ## Theorems -/

/-! ### The client -/

theorem fulfilAll_store {α : Type} (d : Delegate α) (env : Env) (ps : List (Dispatch α))
    (w : World) : (d.fulfilAll env ps w).2.store = d.writeAll env ps w.store := by
  induction ps generalizing w with
  | nil => rfl
  | cons p ps ih => simp [Delegate.fulfilAll, Delegate.writeAll, ih]

theorem fulfilAll_length {α : Type} (d : Delegate α) (env : Env) (ps : List (Dispatch α))
    (w : World) : (d.fulfilAll env ps w).1.length = ps.length := by
  induction ps generalizing w with
  | nil => rfl
  | cons p ps ih => simp [Delegate.fulfilAll, ih]

theorem find_rejects_none {α : Type} (env : Env) (ps : List (Dispatch α)) :
    ps.find? (fun p => env.rejects p.call) = none ↔ batchRejects env ps = false := by
  simp [batchRejects]

theorem upsertAll_store {α : Type} (d : Delegate α) (env : Env) (ps : List (Dispatch α))
    (w : World) : (d.upsertAll env ps w).2.store = d.writeAll env (landing env ps) w.store := by
  unfold Delegate.upsertAll landing
  cases h : ps.find? (fun p => env.rejects p.call) with
  | none =>
    have hb := (find_rejects_none env ps).1 h
    simp [hb, fulfilAll_store]
  | some p =>
    have hb : batchRejects env ps = true := by
      cases hb : batchRejects env ps with
      | true => rfl
      | false => rw [(find_rejects_none env ps).2 hb] at h; cases h
    simp [hb, Delegate.writeAll]

theorem upsertAll_fst_of_ok {α : Type} (d : Delegate α) (env : Env) (ps : List (Dispatch α))
    (w : World) (h : batchRejects env ps = false) :
    d.upsertAll env ps w =
      (.resolved (d.fulfilAll env ps
          { w with
            trace := w.trace ++ ps.map (fun p => .call p.call (d.args p.whereKey p.create)) }).1,
        (d.fulfilAll env ps
          { w with
            trace := w.trace ++ ps.map (fun p => .call p.call (d.args p.whereKey p.create)) }).2) := by
  unfold Delegate.upsertAll
  rw [(find_rejects_none env ps).2 h]

theorem upsertAll_of_rejects {α : Type} (d : Delegate α) (env : Env) (ps : List (Dispatch α))
    (w : World) (h : batchRejects env ps = true) :
    ∃ c, d.upsertAll env ps w =
      (.rejected (.upsert c),
        { store := d.writeAll env (landing env ps) w.store,
          trace := w.trace ++ ps.map (fun p => .call p.call (d.args p.whereKey p.create)) ++
            [.threw (.upsert c)] }) := by
  unfold Delegate.upsertAll
  cases hf : ps.find? (fun p => env.rejects p.call) with
  | none => rw [(find_rejects_none env ps).1 hf] at h; cases h
  | some p => exact ⟨p.call, by simp [landing, h, Delegate.writeAll]⟩

/-! ### Each delegate writes its own table only -/

@[simp] theorem prismaUser_write_user (env : Env) (k : String) (v : User) (s : Store) :
    (prismaUser.write env k v s).user = (upsertRow env.genId User.email s.user k v).2 := rfl

@[simp] theorem prismaUser_write_centro (env : Env) (k : String) (v : User) (s : Store) :
    (prismaUser.write env k v s).centro = s.centro := rfl

@[simp] theorem prismaUser_write_accommodation (env : Env) (k : String) (v : User) (s : Store) :
    (prismaUser.write env k v s).accommodation = s.accommodation := rfl

@[simp] theorem prismaUser_write_activityType (env : Env) (k : String) (v : User) (s : Store) :
    (prismaUser.write env k v s).activityType = s.activityType := rfl

@[simp] theorem prismaUser_write_systemSetting (env : Env) (k : String) (v : User) (s : Store) :
    (prismaUser.write env k v s).systemSetting = s.systemSetting := rfl

@[simp] theorem prismaCentro_write_user (env : Env) (k : String) (v : Centro) (s : Store) :
    (prismaCentro.write env k v s).user = s.user := rfl

@[simp] theorem prismaCentro_write_centro (env : Env) (k : String) (v : Centro) (s : Store) :
    (prismaCentro.write env k v s).centro = (upsertRow env.genId Centro.slug s.centro k v).2 := rfl

@[simp] theorem prismaCentro_write_accommodation (env : Env) (k : String) (v : Centro) (s : Store) :
    (prismaCentro.write env k v s).accommodation = s.accommodation := rfl

@[simp] theorem prismaCentro_write_activityType (env : Env) (k : String) (v : Centro) (s : Store) :
    (prismaCentro.write env k v s).activityType = s.activityType := rfl

@[simp] theorem prismaCentro_write_systemSetting (env : Env) (k : String) (v : Centro) (s : Store) :
    (prismaCentro.write env k v s).systemSetting = s.systemSetting := rfl

@[simp] theorem prismaAccommodation_write_user (env : Env) (k : String) (v : Accommodation) (s : Store) :
    (prismaAccommodation.write env k v s).user = s.user := rfl

@[simp] theorem prismaAccommodation_write_centro (env : Env) (k : String) (v : Accommodation) (s : Store) :
    (prismaAccommodation.write env k v s).centro = s.centro := rfl

@[simp] theorem prismaAccommodation_write_accommodation (env : Env) (k : String) (v : Accommodation) (s : Store) :
    (prismaAccommodation.write env k v s).accommodation = (upsertRow env.genId Accommodation.identifier s.accommodation k v).2 := rfl

@[simp] theorem prismaAccommodation_write_activityType (env : Env) (k : String) (v : Accommodation) (s : Store) :
    (prismaAccommodation.write env k v s).activityType = s.activityType := rfl

@[simp] theorem prismaAccommodation_write_systemSetting (env : Env) (k : String) (v : Accommodation) (s : Store) :
    (prismaAccommodation.write env k v s).systemSetting = s.systemSetting := rfl

@[simp] theorem prismaActivityType_write_user (env : Env) (k : String) (v : ActivityType) (s : Store) :
    (prismaActivityType.write env k v s).user = s.user := rfl

@[simp] theorem prismaActivityType_write_centro (env : Env) (k : String) (v : ActivityType) (s : Store) :
    (prismaActivityType.write env k v s).centro = s.centro := rfl

@[simp] theorem prismaActivityType_write_accommodation (env : Env) (k : String) (v : ActivityType) (s : Store) :
    (prismaActivityType.write env k v s).accommodation = s.accommodation := rfl

@[simp] theorem prismaActivityType_write_activityType (env : Env) (k : String) (v : ActivityType) (s : Store) :
    (prismaActivityType.write env k v s).activityType = (upsertRow env.genId ActivityType.slug s.activityType k v).2 := rfl

@[simp] theorem prismaActivityType_write_systemSetting (env : Env) (k : String) (v : ActivityType) (s : Store) :
    (prismaActivityType.write env k v s).systemSetting = s.systemSetting := rfl

@[simp] theorem prismaSystemSetting_write_user (env : Env) (k : String) (v : SystemSetting) (s : Store) :
    (prismaSystemSetting.write env k v s).user = s.user := rfl

@[simp] theorem prismaSystemSetting_write_centro (env : Env) (k : String) (v : SystemSetting) (s : Store) :
    (prismaSystemSetting.write env k v s).centro = s.centro := rfl

@[simp] theorem prismaSystemSetting_write_accommodation (env : Env) (k : String) (v : SystemSetting) (s : Store) :
    (prismaSystemSetting.write env k v s).accommodation = s.accommodation := rfl

@[simp] theorem prismaSystemSetting_write_activityType (env : Env) (k : String) (v : SystemSetting) (s : Store) :
    (prismaSystemSetting.write env k v s).activityType = s.activityType := rfl

@[simp] theorem prismaSystemSetting_write_systemSetting (env : Env) (k : String) (v : SystemSetting) (s : Store) :
    (prismaSystemSetting.write env k v s).systemSetting = (upsertRow env.genId SystemSetting.key s.systemSetting k v).2 := rfl

@[simp] theorem prismaAccommodation_writeAll_user (env : Env) (ps : List (Dispatch Accommodation)) (s : Store) :
    (prismaAccommodation.writeAll env ps s).user = s.user := by
  induction ps generalizing s with
  | nil => rfl
  | cons p ps ih => simp_all [Delegate.writeAll]

@[simp] theorem prismaAccommodation_writeAll_centro (env : Env) (ps : List (Dispatch Accommodation)) (s : Store) :
    (prismaAccommodation.writeAll env ps s).centro = s.centro := by
  induction ps generalizing s with
  | nil => rfl
  | cons p ps ih => simp_all [Delegate.writeAll]

@[simp] theorem prismaAccommodation_writeAll_accommodation (env : Env) (ps : List (Dispatch Accommodation)) (s : Store) :
    (prismaAccommodation.writeAll env ps s).accommodation = upsertRows env.genId Accommodation.identifier ps s.accommodation := by
  induction ps generalizing s with
  | nil => rfl
  | cons p ps ih => simp_all [Delegate.writeAll, upsertRows]

@[simp] theorem prismaAccommodation_writeAll_activityType (env : Env) (ps : List (Dispatch Accommodation)) (s : Store) :
    (prismaAccommodation.writeAll env ps s).activityType = s.activityType := by
  induction ps generalizing s with
  | nil => rfl
  | cons p ps ih => simp_all [Delegate.writeAll]

@[simp] theorem prismaAccommodation_writeAll_systemSetting (env : Env) (ps : List (Dispatch Accommodation)) (s : Store) :
    (prismaAccommodation.writeAll env ps s).systemSetting = s.systemSetting := by
  induction ps generalizing s with
  | nil => rfl
  | cons p ps ih => simp_all [Delegate.writeAll]

@[simp] theorem prismaActivityType_writeAll_user (env : Env) (ps : List (Dispatch ActivityType)) (s : Store) :
    (prismaActivityType.writeAll env ps s).user = s.user := by
  induction ps generalizing s with
  | nil => rfl
  | cons p ps ih => simp_all [Delegate.writeAll]

@[simp] theorem prismaActivityType_writeAll_centro (env : Env) (ps : List (Dispatch ActivityType)) (s : Store) :
    (prismaActivityType.writeAll env ps s).centro = s.centro := by
  induction ps generalizing s with
  | nil => rfl
  | cons p ps ih => simp_all [Delegate.writeAll]

@[simp] theorem prismaActivityType_writeAll_accommodation (env : Env) (ps : List (Dispatch ActivityType)) (s : Store) :
    (prismaActivityType.writeAll env ps s).accommodation = s.accommodation := by
  induction ps generalizing s with
  | nil => rfl
  | cons p ps ih => simp_all [Delegate.writeAll]

@[simp] theorem prismaActivityType_writeAll_activityType (env : Env) (ps : List (Dispatch ActivityType)) (s : Store) :
    (prismaActivityType.writeAll env ps s).activityType = upsertRows env.genId ActivityType.slug ps s.activityType := by
  induction ps generalizing s with
  | nil => rfl
  | cons p ps ih => simp_all [Delegate.writeAll, upsertRows]

@[simp] theorem prismaActivityType_writeAll_systemSetting (env : Env) (ps : List (Dispatch ActivityType)) (s : Store) :
    (prismaActivityType.writeAll env ps s).systemSetting = s.systemSetting := by
  induction ps generalizing s with
  | nil => rfl
  | cons p ps ih => simp_all [Delegate.writeAll]

theorem script_store (env : Env) (s : Store) : finalStore env s = seedEffect env s := by
  unfold finalStore script main mainTry seedEffect
  rcases Bool.eq_false_or_eq_true (env.rejects .adminUser) with h1 | h1
  · simp [await, thenCatch, thenFinally, processExit, disconnect, h1, Delegate.upsert,
      World.emit]
  rcases Bool.eq_false_or_eq_true (env.rejects .centro) with h2 | h2
  · simp [await, thenCatch, thenFinally, processExit, disconnect, h1, h2, Delegate.upsert,
      World.emit]
  have hc : ∀ k v, (prismaCentro.found env "pro-mata-pucrs" (centroData (env.dateNow 1))
      (prismaUser.write env k v s)).id = centroIdOf env s := fun _ _ => rfl
  rcases Bool.eq_false_or_eq_true (batchRejects env (accommodationBatch (centroIdOf env s)))
    with h3 | h3
  · simp only [Delegate.upsert, h1, h2, await, World.emit, hc, Bool.false_eq_true, if_false]
    obtain ⟨c, hc3⟩ := upsertAll_of_rejects prismaAccommodation env
      (accommodationBatch (centroIdOf env s)) _ h3
    rw [hc3]
    simp [thenCatch, thenFinally, processExit, h3, World.emit]
  rcases Bool.eq_false_or_eq_true (batchRejects env activityTypeBatch) with h4 | h4
  · simp only [Delegate.upsert, h1, h2, await, World.emit, hc, Bool.false_eq_true, if_false,
      upsertAll_fst_of_ok _ _ _ _ h3]
    obtain ⟨c, hc4⟩ := upsertAll_of_rejects prismaActivityType env activityTypeBatch
      (World.mk
        (prismaAccommodation.fulfilAll env (accommodationBatch (centroIdOf env s))
          (World.mk
            (prismaCentro.write env "pro-mata-pucrs" (centroData (env.dateNow 1))
              (prismaUser.write env "admin@promata.com.br" (adminUserData (env.dateNow 0)) s))
            _)).2.store
        _) h4
    rw [hc4]
    simp [thenCatch, thenFinally, processExit, h3, h4, World.emit, fulfilAll_store]
  rcases Bool.eq_false_or_eq_true (env.rejects .bookingSettings) with h5 | h5
  · simp [Delegate.upsert, h1, h2, h3, h4, h5, await, World.emit, hc,
      upsertAll_fst_of_ok, thenCatch, thenFinally, processExit, fulfilAll_store]
  · rcases Bool.eq_false_or_eq_true env.disconnectRejects with h6 | h6 <;>
    simp [Delegate.upsert, h1, h2, h3, h4, h5, h6, await, World.emit, hc,
      upsertAll_fst_of_ok, thenCatch, thenFinally, processExit, fulfilAll_store, disconnect]

/-! ### The store after a run, table by table -/

theorem batchRejects_accommodation (env : Env) (cid : Id) :
    batchRejects env (accommodationBatch cid) =
      (env.rejects .quarto001 || env.rejects .quarto002 || env.rejects .dormitorio001) := by
  simp [batchRejects, accommodationBatch, Bool.or_assoc]

theorem batchRejects_activityType (env : Env) :
    batchRejects env activityTypeBatch =
      (env.rejects .trilhaEcologica || env.rejects .observacaoAves ||
        env.rejects .pesquisaCientifica) := by
  simp [batchRejects, activityTypeBatch, Bool.or_assoc]

theorem finalStore_user (env : Env) (s : Store) :
    (finalStore env s).user =
      if env.rejects .adminUser then s.user
      else (upsertRow env.genId User.email s.user "admin@promata.com.br"
        (adminUserData (env.dateNow 0))).2 := by
  rw [script_store]; unfold seedEffect; split_ifs <;> simp

theorem finalStore_centro (env : Env) (s : Store) :
    (finalStore env s).centro =
      if env.rejects .adminUser || env.rejects .centro then s.centro
      else (upsertRow env.genId Centro.slug s.centro "pro-mata-pucrs"
        (centroData (env.dateNow 1))).2 := by
  rw [script_store]; unfold seedEffect; split_ifs <;> simp_all

theorem finalStore_accommodation (env : Env) (s : Store) :
    (finalStore env s).accommodation =
      if env.rejects .adminUser || env.rejects .centro then s.accommodation
      else upsertRows env.genId Accommodation.identifier
        (landing env (accommodationBatch (centroIdOf env s))) s.accommodation := by
  rw [script_store]; unfold seedEffect; split_ifs <;> simp_all [landing]

theorem finalStore_activityType (env : Env) (s : Store) :
    (finalStore env s).activityType =
      if env.rejects .adminUser || env.rejects .centro ||
        batchRejects env (accommodationBatch (centroIdOf env s)) then s.activityType
      else upsertRows env.genId ActivityType.slug (landing env activityTypeBatch)
        s.activityType := by
  rw [script_store]; unfold seedEffect; split_ifs <;> simp_all [landing]

theorem anyRejects_eq (env : Env) (cid : Id) :
    anyRejects env =
      (env.rejects .adminUser || env.rejects .centro ||
        batchRejects env (accommodationBatch cid) || batchRejects env activityTypeBatch ||
        env.rejects .bookingSettings) := by
  simp [anyRejects, Call.all, batchRejects_accommodation, batchRejects_activityType,
    Bool.or_assoc]

theorem finalStore_systemSetting (env : Env) (s : Store) :
    (finalStore env s).systemSetting =
      if anyRejects env then s.systemSetting
      else (upsertRow env.genId SystemSetting.key s.systemSetting "booking_settings"
        bookingSettingsData).2 := by
  rw [script_store, anyRejects_eq env (centroIdOf env s)]
  unfold seedEffect; split_ifs <;> simp_all

theorem anyRejects_iff (env : Env) : anyRejects env = true ↔ ∃ c, env.rejects c = true := by
  constructor
  · intro h
    simp only [anyRejects, List.any_eq_true] at h
    obtain ⟨c, _, hc⟩ := h
    exact ⟨c, hc⟩
  · rintro ⟨c, hc⟩
    simp only [anyRejects, List.any_eq_true]
    exact ⟨c, by cases c <;> simp [Call.all], hc⟩

theorem anyRejects_false_iff (env : Env) :
    anyRejects env = false ↔ ∀ c, env.rejects c = false := by
  rw [← Bool.not_eq_true, anyRejects_iff]
  simp

/-! ### How a run ends -/

theorem script_outcome (env : Env) (s : Store) :
    (script env s).1 =
      if anyRejects env then .exited 1
      else if env.disconnectRejects then .rejected .disconnect else .resolved () := by
  unfold script main mainTry
  simp only [Delegate.upsert, Delegate.upsertAll, accommodationBatch, activityTypeBatch,
    List.find?, anyRejects, Call.all, List.any]
  rcases Bool.eq_false_or_eq_true (env.rejects .adminUser) with h1 | h1
  · simp [await, thenCatch, thenFinally, processExit, disconnect, h1]
  rcases Bool.eq_false_or_eq_true (env.rejects .centro) with h2 | h2
  · simp [await, thenCatch, thenFinally, processExit, disconnect, h1, h2]
  rcases Bool.eq_false_or_eq_true (env.rejects .quarto001) with h3 | h3
  · simp [await, thenCatch, thenFinally, processExit, disconnect, h1, h2, h3]
  rcases Bool.eq_false_or_eq_true (env.rejects .quarto002) with h4 | h4
  · simp [await, thenCatch, thenFinally, processExit, disconnect, h1, h2, h3, h4]
  rcases Bool.eq_false_or_eq_true (env.rejects .dormitorio001) with h5 | h5
  · simp [await, thenCatch, thenFinally, processExit, disconnect, h1, h2, h3, h4, h5]
  rcases Bool.eq_false_or_eq_true (env.rejects .trilhaEcologica) with h6 | h6
  · simp [await, thenCatch, thenFinally, processExit, disconnect, h1, h2, h3, h4, h5, h6]
  rcases Bool.eq_false_or_eq_true (env.rejects .observacaoAves) with h7 | h7
  · simp [await, thenCatch, thenFinally, processExit, disconnect, h1, h2, h3, h4, h5, h6,
      h7]
  rcases Bool.eq_false_or_eq_true (env.rejects .pesquisaCientifica) with h8 | h8
  · simp [await, thenCatch, thenFinally, processExit, disconnect, h1, h2, h3, h4, h5, h6,
      h7, h8]
  rcases Bool.eq_false_or_eq_true (env.rejects .bookingSettings) with h9 | h9
  · simp [await, thenCatch, thenFinally, processExit, disconnect, h1, h2, h3, h4, h5, h6,
      h7, h8, h9]
  rcases Bool.eq_false_or_eq_true (env.disconnectRejects) with h10 | h10 <;>
  simp [await, thenCatch, thenFinally, processExit, disconnect, h1, h2, h3, h4, h5, h6, h7,
    h8, h9, h10, Delegate.fulfilAll, World.emit]

theorem runStatus_eq (env : Env) (s : Store) :
    runStatus env s =
      if anyRejects env then 1
      else if env.disconnectRejects then env.unhandledRejectionStatus else 0 := by
  unfold runStatus
  rw [script_outcome]
  split_ifs <;> rfl

/-! ### The trace of a run -/

theorem fulfilAll_trace {α : Type} (d : Delegate α) (env : Env) (ps : List (Dispatch α))
    (w : World) :
    (d.fulfilAll env ps w).2.trace = w.trace ++ returnedEvents d env ps w.store := by
  induction ps generalizing w with
  | nil => simp [Delegate.fulfilAll, returnedEvents]
  | cons p ps ih => simp [Delegate.fulfilAll, returnedEvents, ih]

@[simp] theorem issued_append (t u : List Event) : issued (t ++ u) = issued t ++ issued u := by
  simp [issued]

@[simp] theorem issued_map_call {α : Type} (d : Delegate α) (ps : List (Dispatch α)) :
    issued (ps.map fun p => Event.call p.call (d.args p.whereKey p.create)) =
      ps.map Dispatch.call := by
  induction ps with
  | nil => rfl
  | cons p ps ih =>
    simp only [List.map_cons, issued, List.filterMap_cons] at ih ⊢
    rw [ih]

@[simp] theorem issued_nil : issued [] = [] := rfl

@[simp] theorem issued_log (l : String) (t : List Event) :
    issued (.log l :: t) = issued t := rfl

@[simp] theorem issued_error (l : String) (e : Err) (t : List Event) :
    issued (.error l e :: t) = issued t := rfl

@[simp] theorem issued_call (c : Call) (a : UpsertArgs) (t : List Event) :
    issued (.call c a :: t) = c :: issued t := rfl

@[simp] theorem issued_returned (c : Call) (r : Record) (t : List Event) :
    issued (.returned c r :: t) = issued t := rfl

@[simp] theorem issued_threw (e : Err) (t : List Event) :
    issued (.threw e :: t) = issued t := rfl

@[simp] theorem issued_disconnect (t : List Event) :
    issued (.disconnect :: t) = issued t := rfl

@[simp] theorem issued_exit (n : Nat) (t : List Event) :
    issued (.exit n :: t) = issued t := rfl

@[simp] theorem issued_returnedEvents {α : Type} (d : Delegate α) (env : Env)
    (ps : List (Dispatch α)) (s : Store) : issued (returnedEvents d env ps s) = [] := by
  induction ps generalizing s with
  | nil => rfl
  | cons p ps ih =>
    simp only [returnedEvents, issued_returned]
    exact ih _

theorem script_issued (env : Env) (s : Store) : issued (runTrace env s) = issuedCalls env := by
  unfold runTrace script main mainTry issuedCalls
  rcases Bool.eq_false_or_eq_true (env.rejects .adminUser) with h1 | h1
  · simp [await, thenCatch, thenFinally, processExit, disconnect, h1, Delegate.upsert,
      World.emit]
  rcases Bool.eq_false_or_eq_true (env.rejects .centro) with h2 | h2
  · simp [await, thenCatch, thenFinally, processExit, disconnect, h1, h2, Delegate.upsert,
      World.emit]
  have hc : ∀ k v, (prismaCentro.found env "pro-mata-pucrs" (centroData (env.dateNow 1))
      (prismaUser.write env k v s)).id = centroIdOf env s := fun _ _ => rfl
  have e3 := batchRejects_accommodation env (centroIdOf env s)
  have e4 := batchRejects_activityType env
  rcases Bool.eq_false_or_eq_true (batchRejects env (accommodationBatch (centroIdOf env s)))
    with h3 | h3
  · simp only [Delegate.upsert, h1, h2, await, World.emit, hc, Bool.false_eq_true, if_false]
    obtain ⟨c, hc3⟩ := upsertAll_of_rejects prismaAccommodation env
      (accommodationBatch (centroIdOf env s)) _ h3
    rw [hc3, ← e3, h3]
    simp [thenCatch, thenFinally, processExit, World.emit, accommodationBatch]
  rw [← e3, h3]
  rcases Bool.eq_false_or_eq_true (batchRejects env activityTypeBatch) with h4 | h4
  · simp only [Delegate.upsert, h1, h2, await, World.emit, hc, Bool.false_eq_true, if_false,
      upsertAll_fst_of_ok _ _ _ _ h3]
    obtain ⟨c, hc4⟩ := upsertAll_of_rejects prismaActivityType env activityTypeBatch
      (World.mk
        (prismaAccommodation.fulfilAll env (accommodationBatch (centroIdOf env s))
          (World.mk
            (prismaCentro.write env "pro-mata-pucrs" (centroData (env.dateNow 1))
              (prismaUser.write env "admin@promata.com.br" (adminUserData (env.dateNow 0)) s))
            _)).2.store
        _) h4
    rw [hc4, ← e4, h4]
    simp [thenCatch, thenFinally, processExit, World.emit, fulfilAll_trace]
    simp [accommodationBatch, activityTypeBatch]
  rw [← e4, h4]
  rcases Bool.eq_false_or_eq_true (env.rejects .bookingSettings) with h5 | h5
  · simp [Delegate.upsert, h1, h2, h3, h4, h5, await, World.emit, hc,
      upsertAll_fst_of_ok, thenCatch, thenFinally, processExit, fulfilAll_trace]
    simp [accommodationBatch, activityTypeBatch]
  · rcases Bool.eq_false_or_eq_true env.disconnectRejects with h6 | h6 <;>
    simp [Delegate.upsert, h1, h2, h3, h4, h5, h6, await, World.emit, hc,
      upsertAll_fst_of_ok, thenCatch, thenFinally, processExit, fulfilAll_trace,
      disconnect] <;>
    simp [accommodationBatch, activityTypeBatch]

@[simp] theorem upsertEvents_nil : upsertEvents [] = [] := rfl

@[simp] theorem upsertEvents_append (t u : List Event) :
    upsertEvents (t ++ u) = upsertEvents t ++ upsertEvents u := by
  simp [upsertEvents]

@[simp] theorem upsertEvents_log (l : String) (t : List Event) :
    upsertEvents (.log l :: t) = upsertEvents t := rfl

@[simp] theorem upsertEvents_error (l : String) (e : Err) (t : List Event) :
    upsertEvents (.error l e :: t) = upsertEvents t := rfl

@[simp] theorem upsertEvents_call (c : Call) (a : UpsertArgs) (t : List Event) :
    upsertEvents (.call c a :: t) = .call c a :: upsertEvents t := rfl

@[simp] theorem upsertEvents_returned (c : Call) (r : Record) (t : List Event) :
    upsertEvents (.returned c r :: t) = .returned c r :: upsertEvents t := rfl

@[simp] theorem upsertEvents_threw (e : Err) (t : List Event) :
    upsertEvents (.threw e :: t) = upsertEvents t := rfl

@[simp] theorem upsertEvents_disconnect (t : List Event) :
    upsertEvents (.disconnect :: t) = upsertEvents t := rfl

@[simp] theorem upsertEvents_exit (n : Nat) (t : List Event) :
    upsertEvents (.exit n :: t) = upsertEvents t := rfl

@[simp] theorem upsertEvents_map_call {α : Type} (d : Delegate α) (ps : List (Dispatch α)) :
    upsertEvents (ps.map fun p => Event.call p.call (d.args p.whereKey p.create)) =
      ps.map fun p => Event.call p.call (d.args p.whereKey p.create) := by
  induction ps with
  | nil => rfl
  | cons p ps ih => simp only [List.map_cons, upsertEvents_call, ih]

@[simp] theorem upsertEvents_returnedEvents {α : Type} (d : Delegate α) (env : Env)
    (ps : List (Dispatch α)) (s : Store) :
    upsertEvents (returnedEvents d env ps s) = returnedEvents d env ps s := by
  induction ps generalizing s with
  | nil => rfl
  | cons p ps ih => simp only [returnedEvents, upsertEvents_returned, ih]

@[simp] theorem disconnectCount_nil : disconnectCount [] = 0 := rfl

@[simp] theorem disconnectCount_append (t u : List Event) :
    disconnectCount (t ++ u) = disconnectCount t + disconnectCount u := by
  simp [disconnectCount]

@[simp] theorem disconnectCount_log (l : String) (t : List Event) :
    disconnectCount (.log l :: t) = disconnectCount t := by
  simp [disconnectCount]

@[simp] theorem disconnectCount_error (l : String) (e : Err) (t : List Event) :
    disconnectCount (.error l e :: t) = disconnectCount t := by
  simp [disconnectCount]

@[simp] theorem disconnectCount_call (c : Call) (a : UpsertArgs) (t : List Event) :
    disconnectCount (.call c a :: t) = disconnectCount t := by
  simp [disconnectCount]

@[simp] theorem disconnectCount_returned (c : Call) (r : Record) (t : List Event) :
    disconnectCount (.returned c r :: t) = disconnectCount t := by
  simp [disconnectCount]

@[simp] theorem disconnectCount_threw (e : Err) (t : List Event) :
    disconnectCount (.threw e :: t) = disconnectCount t := by
  simp [disconnectCount]

@[simp] theorem disconnectCount_disconnect (t : List Event) :
    disconnectCount (.disconnect :: t) = disconnectCount t + 1 := by
  simp [disconnectCount]

@[simp] theorem disconnectCount_exit (n : Nat) (t : List Event) :
    disconnectCount (.exit n :: t) = disconnectCount t := by
  simp [disconnectCount]

@[simp] theorem disconnectCount_map_call {α : Type} (d : Delegate α)
    (ps : List (Dispatch α)) :
    disconnectCount (ps.map fun p => Event.call p.call (d.args p.whereKey p.create)) = 0 := by
  induction ps with
  | nil => rfl
  | cons p ps ih => simp only [List.map_cons, disconnectCount_call, ih]

@[simp] theorem disconnectCount_returnedEvents {α : Type} (d : Delegate α) (env : Env)
    (ps : List (Dispatch α)) (s : Store) : disconnectCount (returnedEvents d env ps s) = 0 := by
  induction ps generalizing s with
  | nil => rfl
  | cons p ps ih => simp only [returnedEvents, disconnectCount_returned, ih]

theorem script_disconnectCount (env : Env) (s : Store) :
    disconnectCount (runTrace env s) = if anyRejects env then 0 else 1 := by
  rw [anyRejects_eq env (centroIdOf env s)]
  unfold runTrace script main mainTry
  rcases Bool.eq_false_or_eq_true (env.rejects .adminUser) with h1 | h1
  · simp [await, thenCatch, thenFinally, processExit, disconnect, h1, Delegate.upsert,
      World.emit]
  rcases Bool.eq_false_or_eq_true (env.rejects .centro) with h2 | h2
  · simp [await, thenCatch, thenFinally, processExit, disconnect, h1, h2, Delegate.upsert,
      World.emit]
  have hc : ∀ k v, (prismaCentro.found env "pro-mata-pucrs" (centroData (env.dateNow 1))
      (prismaUser.write env k v s)).id = centroIdOf env s := fun _ _ => rfl
  rcases Bool.eq_false_or_eq_true (batchRejects env (accommodationBatch (centroIdOf env s)))
    with h3 | h3
  · simp only [Delegate.upsert, h1, h2, await, World.emit, hc, Bool.false_eq_true, if_false]
    obtain ⟨c, hc3⟩ := upsertAll_of_rejects prismaAccommodation env
      (accommodationBatch (centroIdOf env s)) _ h3
    rw [hc3, h3]
    simp [thenCatch, thenFinally, processExit, World.emit, accommodationBatch]
  rw [h3]
  rcases Bool.eq_false_or_eq_true (batchRejects env activityTypeBatch) with h4 | h4
  · simp only [Delegate.upsert, h1, h2, await, World.emit, hc, Bool.false_eq_true, if_false,
      upsertAll_fst_of_ok _ _ _ _ h3]
    obtain ⟨c, hc4⟩ := upsertAll_of_rejects prismaActivityType env activityTypeBatch
      (World.mk
        (prismaAccommodation.fulfilAll env (accommodationBatch (centroIdOf env s))
          (World.mk
            (prismaCentro.write env "pro-mata-pucrs" (centroData (env.dateNow 1))
              (prismaUser.write env "admin@promata.com.br" (adminUserData (env.dateNow 0)) s))
            _)).2.store
        _) h4
    rw [hc4, h4]
    simp [thenCatch, thenFinally, processExit, World.emit, fulfilAll_trace]
  rw [h4]
  rcases Bool.eq_false_or_eq_true (env.rejects .bookingSettings) with h5 | h5
  · simp [Delegate.upsert, h1, h2, h3, h4, h5, await, World.emit, hc,
      upsertAll_fst_of_ok, thenCatch, thenFinally, processExit, fulfilAll_trace]
  · rcases Bool.eq_false_or_eq_true env.disconnectRejects with h6 | h6 <;>
    simp [Delegate.upsert, h1, h2, h3, h4, h5, h6, await, World.emit, hc,
      upsertAll_fst_of_ok, thenCatch, thenFinally, processExit, fulfilAll_trace,
      disconnect]


theorem script_upsertEvents (env : Env) (s : Store) :
    upsertEvents (runTrace env s) = (happyPath env s).take (upsertCount env) := by
  unfold runTrace script main mainTry upsertCount
  rcases Bool.eq_false_or_eq_true (env.rejects .adminUser) with h1 | h1
  · simp [await, thenCatch, thenFinally, processExit, disconnect, h1, Delegate.upsert,
      World.emit]
    rfl
  rcases Bool.eq_false_or_eq_true (env.rejects .centro) with h2 | h2
  · simp [await, thenCatch, thenFinally, processExit, disconnect, h1, h2, Delegate.upsert,
      World.emit]
    rfl
  have hc : ∀ k v, (prismaCentro.found env "pro-mata-pucrs" (centroData (env.dateNow 1))
      (prismaUser.write env k v s)).id = centroIdOf env s := fun _ _ => rfl
  have e3 := batchRejects_accommodation env (centroIdOf env s)
  have e4 := batchRejects_activityType env
  rcases Bool.eq_false_or_eq_true (batchRejects env (accommodationBatch (centroIdOf env s)))
    with h3 | h3
  · simp only [Delegate.upsert, h1, h2, await, World.emit, hc, Bool.false_eq_true, if_false]
    obtain ⟨c, hc3⟩ := upsertAll_of_rejects prismaAccommodation env
      (accommodationBatch (centroIdOf env s)) _ h3
    rw [hc3, ← e3, h3]
    simp [thenCatch, thenFinally, processExit, World.emit, accommodationBatch]
    rfl
  rw [← e3, h3]
  rcases Bool.eq_false_or_eq_true (batchRejects env activityTypeBatch) with h4 | h4
  · simp only [Delegate.upsert, h1, h2, await, World.emit, hc, Bool.false_eq_true, if_false,
      upsertAll_fst_of_ok _ _ _ _ h3]
    obtain ⟨c, hc4⟩ := upsertAll_of_rejects prismaActivityType env activityTypeBatch
      (World.mk
        (prismaAccommodation.fulfilAll env (accommodationBatch (centroIdOf env s))
          (World.mk
            (prismaCentro.write env "pro-mata-pucrs" (centroData (env.dateNow 1))
              (prismaUser.write env "admin@promata.com.br" (adminUserData (env.dateNow 0)) s))
            _)).2.store
        _) h4
    rw [hc4, ← e4, h4]
    simp [thenCatch, thenFinally, processExit, World.emit, fulfilAll_trace, fulfilAll_store]
    simp [accommodationBatch, activityTypeBatch]
    rfl
  rw [← e4, h4]
  rcases Bool.eq_false_or_eq_true (env.rejects .bookingSettings) with h5 | h5
  · simp [Delegate.upsert, h1, h2, h3, h4, h5, await, World.emit, hc,
      upsertAll_fst_of_ok, thenCatch, thenFinally, processExit, fulfilAll_trace,
      fulfilAll_store]
    simp [accommodationBatch, activityTypeBatch]
    rfl
  · rcases Bool.eq_false_or_eq_true env.disconnectRejects with h6 | h6
    · simp [Delegate.upsert, h1, h2, h3, h4, h5, h6, await, World.emit, hc,
        upsertAll_fst_of_ok, thenCatch, thenFinally, processExit, fulfilAll_trace,
        fulfilAll_store, disconnect]
      simp [accommodationBatch, activityTypeBatch]
      rfl
    · simp [Delegate.upsert, h1, h2, h3, h4, h5, h6, await, World.emit, hc,
        upsertAll_fst_of_ok, thenCatch, thenFinally, processExit, fulfilAll_trace,
        fulfilAll_store, disconnect]
      simp [accommodationBatch, activityTypeBatch]
      rfl

/-! ### Stores -/

theorem Store.eq_of_tables {a b : Store} (h1 : a.user = b.user) (h2 : a.centro = b.centro)
    (h3 : a.accommodation = b.accommodation) (h4 : a.activityType = b.activityType)
    (h5 : a.systemSetting = b.systemSetting) : a = b := by
  cases a; cases b; simp_all

theorem landing_of_ok {α : Type} (env : Env) (ps : List (Dispatch α))
    (h : batchRejects env ps = false) : landing env ps = ps := by
  simp [landing, h]

theorem finalStore_empty_of_ok (env : Env) (h : ∀ c, env.rejects c = false) :
    finalStore env Store.empty = seededStore env := by
  have ha := (anyRejects_false_iff env).2 h
  have h3 : ∀ cid, batchRejects env (accommodationBatch cid) = false := fun cid => by
    simp [batchRejects_accommodation, h]
  have h4 : batchRejects env activityTypeBatch = false := by
    simp [batchRejects_activityType, h]
  apply Store.eq_of_tables
  · simp [finalStore_user, h, Store.empty, upsertRow, seededStore]
  · simp [finalStore_centro, h, Store.empty, upsertRow, seededStore]
  · rw [finalStore_accommodation, landing_of_ok _ _ (h3 _)]
    simp [h, Store.empty, upsertRows, accommodationBatch, centroIdOf, upsertRow, seededStore,
      quarto001Data, quarto002Data, dormitorio001Data]
  · rw [finalStore_activityType, landing_of_ok _ _ h4]
    simp [h, h3, Store.empty, upsertRows, activityTypeBatch, upsertRow, seededStore,
      trilhaEcologicaData, observacaoAvesData, pesquisaCientificaData]
  · simp [finalStore_systemSetting, ha, Store.empty, upsertRow, seededStore]

/-! ### Upserts on keys that are already present -/

theorem upsertRow_of_present {α : Type} (g : List Id → Id) (unique : α → String)
    (t : List (Row α)) (k : String) (v : α) (h : ∃ r ∈ t, unique r.data = k) :
    (upsertRow g unique t k v).2 = t := by
  unfold upsertRow
  cases hf : t.find? (fun r => unique r.data == k) with
  | some r => rfl
  | none =>
    obtain ⟨r, hr, hk⟩ := h
    have := List.find?_eq_none.1 hf r hr
    simp [hk] at this

theorem upsertRows_of_present {α : Type} (g : List Id → Id) (unique : α → String)
    (ps : List (Dispatch α)) (t : List (Row α))
    (h : ∀ p ∈ ps, ∃ r ∈ t, unique r.data = p.whereKey) : upsertRows g unique ps t = t := by
  induction ps with
  | nil => rfl
  | cons p ps ih =>
    have hp := upsertRow_of_present g unique t p.whereKey p.create (h p (by simp))
    simp only [upsertRows, List.foldl_cons] at ih ⊢
    rw [hp]
    exact ih fun q hq => h q (by simp [hq])

theorem landing_subset {α : Type} (env : Env) (ps : List (Dispatch α)) :
    ∀ p ∈ landing env ps, p ∈ ps := by
  intro p hp
  unfold landing at hp
  split_ifs at hp
  · exact (List.mem_filter.1 hp).1
  · exact hp

theorem finalStore_seededStore (env1 env2 : Env) :
    finalStore env2 (seededStore env1) = seededStore env1 := by
  apply Store.eq_of_tables
  · rw [finalStore_user]
    split_ifs
    · rfl
    · exact upsertRow_of_present _ _ _ _ _ ⟨⟨env1.genId [], adminUserData (env1.dateNow 0)⟩, by simp [seededStore], rfl⟩
  · rw [finalStore_centro]
    split_ifs
    · rfl
    · exact upsertRow_of_present _ _ _ _ _ ⟨⟨env1.genId [], centroData (env1.dateNow 1)⟩, by simp [seededStore], rfl⟩
  · rw [finalStore_accommodation]
    split_ifs
    · rfl
    · apply upsertRows_of_present
      intro p hp
      have := landing_subset env2 _ p hp
      simp only [accommodationBatch, List.mem_cons, List.mem_singleton, List.not_mem_nil,
        or_false] at this
      rcases this with rfl | rfl | rfl <;> simp [seededStore] <;> simp [quarto001Data,
        quarto002Data, dormitorio001Data]
  · rw [finalStore_activityType]
    split_ifs
    · rfl
    · apply upsertRows_of_present
      intro p hp
      have := landing_subset env2 _ p hp
      simp only [activityTypeBatch, List.mem_cons, List.mem_singleton, List.not_mem_nil,
        or_false] at this
      rcases this with rfl | rfl | rfl <;> simp [seededStore] <;> simp [trilhaEcologicaData,
        observacaoAvesData, pesquisaCientificaData]
  · rw [finalStore_systemSetting]
    split_ifs
    · rfl
    · exact upsertRow_of_present _ _ _ _ _ ⟨⟨env1.genId [], bookingSettingsData⟩, by simp [seededStore], rfl⟩

/-! ### Claims C1 to C4 -/

/-- C1, as the code behaves: when the admin user upsert rejects (empty store), the `.catch`
handler calls `process.exit(1)`, the `.finally` handler never runs and the teardown is
invoked zero times; in the run where nothing rejects it is invoked exactly once. -/
theorem teardown_skipped_when_upsert_rejects :
    disconnectCount (runTrace (Env.failing .adminUser) Store.empty) = 0 ∧
    runStatus (Env.failing .adminUser) Store.empty = 1 ∧
    disconnectCount (runTrace (Env.ok 10 20) Store.empty) = 1 := by
  refine ⟨?_, ?_, ?_⟩
  · rw [script_disconnectCount]; rfl
  · rw [runStatus_eq]; rfl
  · rw [script_disconnectCount]; rfl

/-- C2, counterexample: in the run where all nine upserts succeed and the teardown rejects,
the exit status is 1 although no upsert rejected. -/
theorem exit_one_without_rejected_upsert :
    ¬ (runStatus Env.teardownFails Store.empty = 1 ↔
        ∃ c, Env.teardownFails.rejects c = true) := by
  intro h
  have h1 : runStatus Env.teardownFails Store.empty = 1 := by rw [runStatus_eq]; rfl
  obtain ⟨c, hc⟩ := h.1 h1
  simp [Env.teardownFails] at hc

/-- C2, amended: the exit status is 1 exactly when some upsert rejects or the teardown
rejects under a runtime that gives status 1 to an unhandled rejection; it is 0 when all nine
upserts and the teardown succeed, and in general it is 1 on a rejected upsert, otherwise the
runtime's unhandled-rejection status on a rejected teardown, otherwise 0. -/
theorem exit_status_of_run (env : Env) (s : Store) :
    (runStatus env s = 1 ↔
      (∃ c, env.rejects c = true) ∨
        (env.disconnectRejects = true ∧ env.unhandledRejectionStatus = 1)) ∧
    (((∀ c, env.rejects c = false) ∧ env.disconnectRejects = false) → runStatus env s = 0) ∧
    runStatus env s =
      (if anyRejects env then 1
       else if env.disconnectRejects then env.unhandledRejectionStatus else 0) := by
  refine ⟨?_, ?_, runStatus_eq env s⟩
  · rw [runStatus_eq, ← anyRejects_iff]
    cases anyRejects env <;> cases env.disconnectRejects <;> simp
  · rintro ⟨h, hd⟩
    rw [runStatus_eq, (anyRejects_false_iff env).2 h, hd]
    rfl

/-- C3: when the first run from the empty store succeeds, a second run (whatever happens
during it) leaves exactly the store the first run produced: the same rows with the same
field values in all five tables, hence the same record counts. -/
theorem second_run_is_noop (env1 env2 : Env) (h : ∀ c, env1.rejects c = false) :
    finalStore env2 (finalStore env1 Store.empty) = finalStore env1 Store.empty ∧
    (finalStore env2 (finalStore env1 Store.empty)).user.length = 1 ∧
    (finalStore env2 (finalStore env1 Store.empty)).centro.length = 1 ∧
    (finalStore env2 (finalStore env1 Store.empty)).accommodation.length = 3 ∧
    (finalStore env2 (finalStore env1 Store.empty)).activityType.length = 3 ∧
    (finalStore env2 (finalStore env1 Store.empty)).systemSetting.length = 1 := by
  rw [finalStore_empty_of_ok env1 h, finalStore_seededStore]
  exact ⟨rfl, rfl, rfl, rfl, rfl, rfl⟩

/-- Instance of C3: a second run at another time, on the store left by a first run. -/
theorem second_run_is_noop_witness :
    (∀ c, (Env.ok 10 20).rejects c = false) ∧
    finalStore (Env.ok 30 40) (finalStore (Env.ok 10 20) Store.empty) =
      finalStore (Env.ok 10 20) Store.empty :=
  ⟨fun _ => rfl, (second_run_is_noop (Env.ok 10 20) (Env.ok 30 40) (fun _ => rfl)).1⟩

/-- C4: a run from the empty store in which no upsert rejects leaves exactly 1 user,
1 centro, 3 accommodations, 3 activity types and 1 system setting: one row per seeded key,
in source order, whose fields are those of its create clause (with `createdAt` the value of
`new Date()` and `centroId` the identifier of the centro row), and nothing else. -/
theorem fresh_run_seeds_nine_records (env : Env) (h : ∀ c, env.rejects c = false) :
    (finalStore env Store.empty).user.map Row.data = [adminUserData (env.dateNow 0)] ∧
    (finalStore env Store.empty).centro.map Row.data = [centroData (env.dateNow 1)] ∧
    (finalStore env Store.empty).accommodation.map Row.data =
      [quarto001Data (env.genId []), quarto002Data (env.genId []),
       dormitorio001Data (env.genId [])] ∧
    (finalStore env Store.empty).centro.map Row.id = [env.genId []] ∧
    (finalStore env Store.empty).activityType.map Row.data =
      [trilhaEcologicaData, observacaoAvesData, pesquisaCientificaData] ∧
    (finalStore env Store.empty).systemSetting.map Row.data = [bookingSettingsData] ∧
    (finalStore env Store.empty).user.map (fun r => r.data.email) =
      ["admin@promata.com.br"] ∧
    (finalStore env Store.empty).centro.map (fun r => r.data.slug) = ["pro-mata-pucrs"] ∧
    (finalStore env Store.empty).accommodation.map (fun r => r.data.identifier) =
      ["QUARTO-001", "QUARTO-002", "DORMITORIO-001"] ∧
    (finalStore env Store.empty).activityType.map (fun r => r.data.slug) =
      ["trilha-ecologica", "observacao-aves", "pesquisa-cientifica"] ∧
    (finalStore env Store.empty).systemSetting.map (fun r => r.data.key) =
      ["booking_settings"] ∧
    finalStore env Store.empty = seededStore env := by
  rw [finalStore_empty_of_ok env h]
  exact ⟨rfl, rfl, rfl, rfl, rfl, rfl, rfl, rfl, rfl, rfl, rfl, rfl⟩

/-- Instance of C4: the accommodation keys after a run from the empty store. -/
theorem fresh_run_seeds_nine_records_witness :
    (∀ c, (Env.ok 10 20).rejects c = false) ∧
    (finalStore (Env.ok 10 20) Store.empty).accommodation.map (fun r => r.data.identifier) =
      ["QUARTO-001", "QUARTO-002", "DORMITORIO-001"] :=
  ⟨fun _ => rfl, (fresh_run_seeds_nine_records (Env.ok 10 20) (fun _ => rfl)).2.2.2.2.2.2.2.2.1⟩

/-! ### Upserts only append rows for absent keys -/

theorem Grown.refl {α : Type} (unique : α → String) (seeded : List String)
    (t : List (Row α)) : Grown unique seeded t t :=
  ⟨[], by simp, by simp, by simp⟩

theorem Grown.trans {α : Type} {unique : α → String} {seeded : List String}
    {t1 t2 t3 : List (Row α)} (h12 : Grown unique seeded t1 t2)
    (h23 : Grown unique seeded t2 t3) : Grown unique seeded t1 t3 := by
  obtain ⟨a1, e1, k1, n1⟩ := h12
  obtain ⟨a2, e2, k2, n2⟩ := h23
  subst e1
  refine ⟨a1 ++ a2, by rw [e2, List.append_assoc], ?_, ?_⟩
  · intro r hr
    rcases List.mem_append.1 hr with hr | hr
    · exact k1 r hr
    · exact ⟨(k2 r hr).1, fun r0 h0 => (k2 r hr).2 r0 (List.mem_append_left _ h0)⟩
  · rw [List.map_append, List.nodup_append]
    refine ⟨n1, n2, ?_⟩
    intro k hk1 hk2
    obtain ⟨r1, hr1, rfl⟩ := List.mem_map.1 hk1
    obtain ⟨r2, hr2, hk⟩ := List.mem_map.1 hk2
    exact (k2 r2 hr2).2 r1 (List.mem_append_right _ hr1) hk.symm

theorem upsertRow_grown {α : Type} (g : List Id → Id) (unique : α → String)
    (seeded : List String) (t : List (Row α)) (k : String) (v : α) (hk : unique v = k)
    (hs : k ∈ seeded) : Grown unique seeded t (upsertRow g unique t k v).2 := by
  unfold upsertRow
  cases hf : t.find? (fun r => unique r.data == k) with
  | some r => exact Grown.refl unique seeded t
  | none =>
    refine ⟨[⟨g (t.map Row.id), v⟩], rfl, ?_, by simp⟩
    intro r hr
    rw [List.mem_singleton] at hr
    subst hr
    refine ⟨by simpa [hk] using hs, fun r0 h0 => ?_⟩
    have := List.find?_eq_none.1 hf r0 h0
    simpa [hk] using this

theorem upsertRows_grown {α : Type} (g : List Id → Id) (unique : α → String)
    (seeded : List String) (ps : List (Dispatch α)) (t : List (Row α))
    (h : ∀ p ∈ ps, unique p.create = p.whereKey ∧ p.whereKey ∈ seeded) :
    Grown unique seeded t (upsertRows g unique ps t) := by
  induction ps generalizing t with
  | nil => exact Grown.refl unique seeded t
  | cons p ps ih =>
    have hp := h p (by simp)
    have := ih (upsertRow g unique t p.whereKey p.create).2 fun q hq => h q (by simp [hq])
    exact (upsertRow_grown g unique seeded t p.whereKey p.create hp.1 hp.2).trans this

theorem Grown.nodup {α : Type} {unique : α → String} {seeded : List String}
    {old new : List (Row α)} (h : Grown unique seeded old new)
    (hn : (old.map fun r => unique r.data).Nodup) :
    (new.map fun r => unique r.data).Nodup := by
  obtain ⟨a, e, k, n⟩ := h
  subst e
  rw [List.map_append, List.nodup_append]
  refine ⟨hn, n, ?_⟩
  intro key h1 h2
  obtain ⟨r1, hr1, rfl⟩ := List.mem_map.1 h1
  obtain ⟨r2, hr2, hk⟩ := List.mem_map.1 h2
  exact (k r2 hr2).2 r1 hr1 hk.symm

theorem Grown.mem_key {α : Type} {unique : α → String} {seeded : List String}
    {old new : List (Row α)} (h : Grown unique seeded old new) {k : String}
    (hk : k ∈ old.map fun r => unique r.data) : k ∈ new.map fun r => unique r.data := by
  obtain ⟨a, e, _, _⟩ := h
  subst e
  rw [List.map_append]
  exact List.mem_append_left _ hk

theorem upsertRow_mem_key {α : Type} (g : List Id → Id) (unique : α → String)
    (t : List (Row α)) (k : String) (v : α) (hk : unique v = k) :
    k ∈ (upsertRow g unique t k v).2.map fun r => unique r.data := by
  unfold upsertRow
  cases hf : t.find? (fun r => unique r.data == k) with
  | some r =>
    have hm := List.mem_of_find?_eq_some hf
    have hp := List.find?_some hf
    exact List.mem_map.2 ⟨r, hm, by simpa using hp⟩
  | none => simp [hk]

theorem upsertRows_mem_key {α : Type} (g : List Id → Id) (unique : α → String)
    (ps : List (Dispatch α)) (t : List (Row α))
    (h : ∀ p ∈ ps, unique p.create = p.whereKey) :
    ∀ p ∈ ps, p.whereKey ∈ (upsertRows g unique ps t).map fun r => unique r.data := by
  induction ps generalizing t with
  | nil => simp
  | cons q ps ih =>
    intro p hp
    have hrest : ∀ p ∈ ps, unique p.create = p.whereKey := fun p hp => h p (by simp [hp])
    rcases List.mem_cons.1 hp with rfl | hp
    · have h1 := upsertRow_mem_key g unique t p.whereKey p.create (h p (by simp))
      have h2 := upsertRows_grown g unique (ps.map Dispatch.whereKey) ps
        (upsertRow g unique t p.whereKey p.create).2
        (fun q hq => ⟨hrest q hq, List.mem_map.2 ⟨q, hq, rfl⟩⟩)
      exact h2.mem_key h1
    · exact ih _ hrest p hp

/-! ### Claim C5 -/

theorem accommodationBatch_keys (cid : Id) :
    ∀ p ∈ accommodationBatch cid, Accommodation.identifier p.create = p.whereKey ∧
      p.whereKey ∈ ["QUARTO-001", "QUARTO-002", "DORMITORIO-001"] := by
  intro p hp
  simp only [accommodationBatch, List.mem_cons, List.mem_singleton, List.not_mem_nil,
    or_false] at hp
  rcases hp with rfl | rfl | rfl <;> simp [quarto001Data, quarto002Data, dormitorio001Data]

theorem activityTypeBatch_keys :
    ∀ p ∈ activityTypeBatch, ActivityType.slug p.create = p.whereKey ∧
      p.whereKey ∈ ["trilha-ecologica", "observacao-aves", "pesquisa-cientifica"] := by
  intro p hp
  simp only [activityTypeBatch, List.mem_cons, List.mem_singleton, List.not_mem_nil,
    or_false] at hp
  rcases hp with rfl | rfl | rfl <;>
    simp [trilhaEcologicaData, observacaoAvesData, pesquisaCientificaData]

theorem finalStore_user_grown (env : Env) (s : Store) :
    Grown User.email ["admin@promata.com.br"] s.user (finalStore env s).user := by
  rw [finalStore_user]
  split_ifs
  · exact Grown.refl _ _ _
  · exact upsertRow_grown _ _ _ _ _ _ rfl (by simp)

theorem finalStore_centro_grown (env : Env) (s : Store) :
    Grown Centro.slug ["pro-mata-pucrs"] s.centro (finalStore env s).centro := by
  rw [finalStore_centro]
  split_ifs
  · exact Grown.refl _ _ _
  · exact upsertRow_grown _ _ _ _ _ _ rfl (by simp)

theorem finalStore_accommodation_grown (env : Env) (s : Store) :
    Grown Accommodation.identifier ["QUARTO-001", "QUARTO-002", "DORMITORIO-001"]
      s.accommodation (finalStore env s).accommodation := by
  rw [finalStore_accommodation]
  split_ifs
  · exact Grown.refl _ _ _
  · exact upsertRows_grown _ _ _ _ _ fun p hp =>
      accommodationBatch_keys _ p (landing_subset env _ p hp)

theorem finalStore_activityType_grown (env : Env) (s : Store) :
    Grown ActivityType.slug ["trilha-ecologica", "observacao-aves", "pesquisa-cientifica"]
      s.activityType (finalStore env s).activityType := by
  rw [finalStore_activityType]
  split_ifs
  · exact Grown.refl _ _ _
  · exact upsertRows_grown _ _ _ _ _ fun p hp =>
      activityTypeBatch_keys p (landing_subset env _ p hp)

theorem finalStore_systemSetting_grown (env : Env) (s : Store) :
    Grown SystemSetting.key ["booking_settings"] s.systemSetting
      (finalStore env s).systemSetting := by
  rw [finalStore_systemSetting]
  split_ifs
  · exact Grown.refl _ _ _
  · exact upsertRow_grown _ _ _ _ _ _ rfl (by simp)

theorem finalStore_hasSeededKeys (env : Env) (s : Store) (h : ∀ c, env.rejects c = false) :
    (finalStore env s).HasSeededKeys := by
  have ha := (anyRejects_false_iff env).2 h
  have h3 : ∀ cid, batchRejects env (accommodationBatch cid) = false := fun cid => by
    simp [batchRejects_accommodation, h]
  have h4 : batchRejects env activityTypeBatch = false := by
    simp [batchRejects_activityType, h]
  refine ⟨?_, ?_, ?_, ?_, ?_⟩
  · rw [finalStore_user]
    simp only [h, Bool.false_eq_true, if_false]
    exact upsertRow_mem_key _ _ _ _ _ rfl
  · rw [finalStore_centro]
    simp only [h, Bool.or_self, Bool.false_eq_true, if_false]
    exact upsertRow_mem_key _ _ _ _ _ rfl
  · rw [finalStore_accommodation, landing_of_ok _ _ (h3 _)]
    simp only [h, Bool.or_self, Bool.false_eq_true, if_false]
    have := upsertRows_mem_key env.genId Accommodation.identifier
      (accommodationBatch (centroIdOf env s)) s.accommodation
      (fun p hp => (accommodationBatch_keys _ p hp).1)
    intro k hk
    simp only [List.mem_cons, List.mem_singleton, List.not_mem_nil, or_false] at hk
    rcases hk with rfl | rfl | rfl
    · exact this ⟨.quarto001, "QUARTO-001", quarto001Data (centroIdOf env s)⟩ (by simp [accommodationBatch])
    · exact this ⟨.quarto002, "QUARTO-002", quarto002Data (centroIdOf env s)⟩ (by simp [accommodationBatch])
    · exact this ⟨.dormitorio001, "DORMITORIO-001", dormitorio001Data (centroIdOf env s)⟩ (by simp [accommodationBatch])
  · rw [finalStore_activityType, landing_of_ok _ _ h4]
    simp only [h, h3, Bool.or_self, Bool.false_eq_true, if_false]
    have := upsertRows_mem_key env.genId ActivityType.slug activityTypeBatch s.activityType
      (fun p hp => (activityTypeBatch_keys p hp).1)
    intro k hk
    simp only [List.mem_cons, List.mem_singleton, List.not_mem_nil, or_false] at hk
    rcases hk with rfl | rfl | rfl
    · exact this ⟨.trilhaEcologica, "trilha-ecologica", trilhaEcologicaData⟩ (by simp [activityTypeBatch])
    · exact this ⟨.observacaoAves, "observacao-aves", observacaoAvesData⟩ (by simp [activityTypeBatch])
    · exact this ⟨.pesquisaCientifica, "pesquisa-cientifica", pesquisaCientificaData⟩ (by simp [activityTypeBatch])
  · rw [finalStore_systemSetting]
    simp only [ha, Bool.false_eq_true, if_false]
    exact upsertRow_mem_key _ _ _ _ _ rfl

/-- C5: from any store with unique keys, a run (successful or not) leaves each table equal
to what it was followed by newly inserted rows; every inserted row carries one of the seeded
keys of that table, a key no earlier row carried, and no key is inserted twice. So every
earlier row is unchanged in every field, no key gets a second row (keys stay unique), and
when no upsert rejects all nine seeded keys are present afterwards. -/
theorem preexisting_rows_untouched (env : Env) (s : Store) (h : s.KeysUnique) :
    Grown User.email ["admin@promata.com.br"] s.user (finalStore env s).user ∧
    Grown Centro.slug ["pro-mata-pucrs"] s.centro (finalStore env s).centro ∧
    Grown Accommodation.identifier ["QUARTO-001", "QUARTO-002", "DORMITORIO-001"]
      s.accommodation (finalStore env s).accommodation ∧
    Grown ActivityType.slug ["trilha-ecologica", "observacao-aves", "pesquisa-cientifica"]
      s.activityType (finalStore env s).activityType ∧
    Grown SystemSetting.key ["booking_settings"] s.systemSetting
      (finalStore env s).systemSetting ∧
    (finalStore env s).KeysUnique ∧
    ((∀ c, env.rejects c = false) → (finalStore env s).HasSeededKeys) :=
  ⟨finalStore_user_grown env s, finalStore_centro_grown env s,
    finalStore_accommodation_grown env s, finalStore_activityType_grown env s,
    finalStore_systemSetting_grown env s,
    ⟨(finalStore_user_grown env s).nodup h.1, (finalStore_centro_grown env s).nodup h.2.1,
      (finalStore_accommodation_grown env s).nodup h.2.2.1,
      (finalStore_activityType_grown env s).nodup h.2.2.2.1,
      (finalStore_systemSetting_grown env s).nodup h.2.2.2.2⟩,
    finalStore_hasSeededKeys env s⟩

/-! ### Claim C6 -/

theorem upsertRow_fst_mem {α : Type} (g : List Id → Id) (unique : α → String)
    (t : List (Row α)) (k : String) (v : α) :
    (upsertRow g unique t k v).1 ∈ (upsertRow g unique t k v).2 := by
  unfold upsertRow
  cases hf : t.find? (fun r => unique r.data == k) with
  | some r => exact List.mem_of_find?_eq_some hf
  | none => simp

theorem upsertRow_fst_key {α : Type} (g : List Id → Id) (unique : α → String)
    (t : List (Row α)) (k : String) (v : α) (hk : unique v = k) :
    unique (upsertRow g unique t k v).1.data = k := by
  unfold upsertRow
  cases hf : t.find? (fun r => unique r.data == k) with
  | some r => simpa using List.find?_some hf
  | none => exact hk

theorem eq_of_nodup_key {α : Type} (unique : α → String) (t : List (Row α))
    (hn : (t.map fun r => unique r.data).Nodup) {a b : Row α} (ha : a ∈ t) (hb : b ∈ t)
    (hab : unique a.data = unique b.data) : a = b :=
  List.inj_on_of_nodup_map hn ha hb hab

theorem upsertRow_added {α : Type} (g : List Id → Id) (unique : α → String)
    (t : List (Row α)) (k : String) (v : α) :
    ∃ added, (upsertRow g unique t k v).2 = t ++ added ∧ ∀ r ∈ added, r.data = v := by
  unfold upsertRow
  cases hf : t.find? (fun r => unique r.data == k) with
  | some r => exact ⟨[], by simp, by simp⟩
  | none => exact ⟨[⟨g (t.map Row.id), v⟩], rfl, by simp⟩

theorem upsertRows_added {α : Type} (g : List Id → Id) (unique : α → String)
    (ps : List (Dispatch α)) (t : List (Row α)) :
    ∃ added, upsertRows g unique ps t = t ++ added ∧
      ∀ r ∈ added, ∃ p ∈ ps, r.data = p.create := by
  induction ps generalizing t with
  | nil => exact ⟨[], by simp [upsertRows], by simp⟩
  | cons p ps ih =>
    obtain ⟨a1, e1, h1⟩ := upsertRow_added g unique t p.whereKey p.create
    obtain ⟨a2, e2, h2⟩ := ih (upsertRow g unique t p.whereKey p.create).2
    refine ⟨a1 ++ a2, ?_, ?_⟩
    · simp only [upsertRows, List.foldl_cons] at e2 ⊢
      rw [e2, e1, List.append_assoc]
    · intro r hr
      rcases List.mem_append.1 hr with hr | hr
      · exact ⟨p, by simp, h1 r hr⟩
      · obtain ⟨q, hq, e⟩ := h2 r hr
        exact ⟨q, by simp [hq], e⟩

/-- C6, counterexample: a successful run on a store that already holds `QUARTO-001` under
another centre leaves that accommodation with its old `centroId`, which is not the
identifier of the centro whose slug is `pro-mata-pucrs`. -/
theorem existing_accommodation_keeps_its_centro :
    runStatus (Env.ok 10 20) Store.legacy = 0 ∧
    ∃ a ∈ (finalStore (Env.ok 10 20) Store.legacy).accommodation,
      a.data.identifier = "QUARTO-001" ∧
      ∃ c ∈ (finalStore (Env.ok 10 20) Store.legacy).centro,
        c.data.slug = "pro-mata-pucrs" ∧ a.data.centroId ≠ c.id := by
  refine ⟨by rw [runStatus_eq]; rfl, ⟨1, quarto001Data 7⟩, ?_, rfl,
    ⟨2, centroData 20⟩, ?_, rfl, by decide⟩
  · rw [(finalStore_accommodation_grown (Env.ok 10 20) Store.legacy).choose_spec.1]
    exact List.mem_append_left _ (by simp [Store.legacy])
  · rw [finalStore_centro]
    simp [Env.ok, Store.legacy, upsertRow, centroData]

/-- C6, amended: after a run in which no upsert rejects, from a store with unique centro
slugs, the accommodation table is the old table followed by the rows the run created; every
created row has `centroId` equal to the identifier of the centro whose slug is
`pro-mata-pucrs` (such a centro exists), and each of the three seeded identifiers that was
absent before the run is among the created rows. -/
theorem created_accommodations_reference_centro (env : Env) (s : Store)
    (hok : ∀ c, env.rejects c = false)
    (hu : (s.centro.map fun r => r.data.slug).Nodup) :
    ∃ added, (finalStore env s).accommodation = s.accommodation ++ added ∧
      (∀ a ∈ added, ∀ c ∈ (finalStore env s).centro,
        c.data.slug = "pro-mata-pucrs" → a.data.centroId = c.id) ∧
      (∀ k ∈ ["QUARTO-001", "QUARTO-002", "DORMITORIO-001"],
        (∀ r ∈ s.accommodation, r.data.identifier ≠ k) →
          ∃ a ∈ added, a.data.identifier = k) ∧
      ∃ c ∈ (finalStore env s).centro, c.data.slug = "pro-mata-pucrs" := by
  have h3 : ∀ cid, batchRejects env (accommodationBatch cid) = false := fun cid => by
    simp [batchRejects_accommodation, hok]
  have hcentro : (finalStore env s).centro =
      (upsertRow env.genId Centro.slug s.centro "pro-mata-pucrs"
        (centroData (env.dateNow 1))).2 := by
    rw [finalStore_centro]; simp [hok]
  have hfound : centroFound env s ∈ (finalStore env s).centro := by
    rw [hcentro]; exact upsertRow_fst_mem _ _ _ _ _
  have hslug : (centroFound env s).data.slug = "pro-mata-pucrs" :=
    upsertRow_fst_key _ Centro.slug _ _ _ rfl
  have hnodup := (finalStore_centro_grown env s).nodup hu
  have hacc : (finalStore env s).accommodation =
      upsertRows env.genId Accommodation.identifier (accommodationBatch (centroIdOf env s))
        s.accommodation := by
    rw [finalStore_accommodation, landing_of_ok _ _ (h3 _)]; simp [hok]
  obtain ⟨added, e, hadded⟩ := upsertRows_added env.genId Accommodation.identifier
    (accommodationBatch (centroIdOf env s)) s.accommodation
  refine ⟨added, by rw [hacc, e], ?_, ?_, ⟨_, hfound, hslug⟩⟩
  · intro a ha c hc hcs
    have hceq : c = centroFound env s :=
      eq_of_nodup_key Centro.slug _ hnodup hc hfound (hcs.trans hslug.symm)
    obtain ⟨p, hp, hd⟩ := hadded a ha
    simp only [accommodationBatch, List.mem_cons, List.mem_singleton, List.not_mem_nil,
      or_false] at hp
    rw [hceq, hd]
    rcases hp with rfl | rfl | rfl <;> rfl
  · intro k hk habs
    have hkeys := (finalStore_hasSeededKeys env s hok).2.2.1 k hk
    rw [hacc, e, List.map_append, List.mem_append] at hkeys
    rcases hkeys with hin | hin
    · obtain ⟨r, hr, hrk⟩ := List.mem_map.1 hin
      exact absurd hrk (habs r hr)
    · obtain ⟨a, ha, hak⟩ := List.mem_map.1 hin
      exact ⟨a, ha, hak⟩

/-- Instance of C6 as amended: a run from the empty store. -/
theorem created_accommodations_reference_centro_witness :
    (∀ c, (Env.ok 10 20).rejects c = false) ∧
    (Store.empty.centro.map fun r => r.data.slug).Nodup ∧
    ∃ added, (finalStore (Env.ok 10 20) Store.empty).accommodation =
        Store.empty.accommodation ++ added ∧
      (∀ a ∈ added, ∀ c ∈ (finalStore (Env.ok 10 20) Store.empty).centro,
        c.data.slug = "pro-mata-pucrs" → a.data.centroId = c.id) ∧
      (∀ k ∈ ["QUARTO-001", "QUARTO-002", "DORMITORIO-001"],
        (∀ r ∈ Store.empty.accommodation, r.data.identifier ≠ k) →
          ∃ a ∈ added, a.data.identifier = k) ∧
      ∃ c ∈ (finalStore (Env.ok 10 20) Store.empty).centro, c.data.slug = "pro-mata-pucrs" :=
  ⟨fun _ => rfl, List.nodup_nil,
    created_accommodations_reference_centro (Env.ok 10 20) Store.empty (fun _ => rfl)
      List.nodup_nil⟩

/-- Instance of C5: a run on the store `Store.legacy`, whose keys are unique. -/
theorem preexisting_rows_untouched_witness :
    Store.legacy.KeysUnique ∧
    Grown Accommodation.identifier ["QUARTO-001", "QUARTO-002", "DORMITORIO-001"]
      Store.legacy.accommodation (finalStore (Env.ok 10 20) Store.legacy).accommodation ∧
    (finalStore (Env.ok 10 20) Store.legacy).KeysUnique :=
  have hk : Store.legacy.KeysUnique := by simp [Store.KeysUnique, Store.legacy]
  ⟨hk, (preexisting_rows_untouched (Env.ok 10 20) Store.legacy hk).2.2.1,
    (preexisting_rows_untouched (Env.ok 10 20) Store.legacy hk).2.2.2.2.2.1⟩

/-! ### Claims C7 to C10 -/

/-- C7: when the upsert at call site `c` rejects, the run exits with status 1, every upsert
the run issues belongs to the step of `c` or to an earlier one, and the tables written by
later steps are left exactly as they were (what may still change in the step of `c` is the
table of its own batch, through the siblings already dispatched). -/
theorem rejection_stops_later_steps (env : Env) (s : Store) (c : Call)
    (h : env.rejects c = true) :
    runStatus env s = 1 ∧
    (∀ c0 ∈ issued (runTrace env s), c0.step ≤ c.step) ∧
    (∀ c0 : Call, c.step < c0.step → c0.sameTable s (finalStore env s)) := by
  have ha : anyRejects env = true := (anyRejects_iff env).2 ⟨c, h⟩
  refine ⟨by rw [runStatus_eq, ha]; rfl, ?_, ?_⟩
  · intro c0 hc0
    rw [script_issued] at hc0
    cases c <;> cases c0 <;> simp_all [issuedCalls, Call.step]
  · intro c0 hlt
    have e3 := batchRejects_accommodation env (centroIdOf env s)
    cases c <;> cases c0 <;> simp only [Call.step] at hlt <;>
      first
        | omega
        | (simp only [Call.sameTable, finalStore_user, finalStore_centro,
              finalStore_accommodation, finalStore_activityType, finalStore_systemSetting,
              ha, e3, h, Bool.or_true, Bool.true_or, if_true])

/-- Instance of C7: the upsert of `QUARTO-002` rejects, run from the empty store. -/
theorem rejection_stops_later_steps_witness :
    (Env.failing .quarto002).rejects .quarto002 = true ∧
    runStatus (Env.failing .quarto002) Store.empty = 1 ∧
    (∀ c0 ∈ issued (runTrace (Env.failing .quarto002) Store.empty),
      c0.step ≤ Call.quarto002.step) ∧
    (∀ c0 : Call, Call.quarto002.step < c0.step →
      c0.sameTable Store.empty (finalStore (Env.failing .quarto002) Store.empty)) :=
  ⟨rfl, rejection_stops_later_steps (Env.failing .quarto002) Store.empty .quarto002 rfl⟩

/-- C8, counterexample: two successful runs from the empty store that read different clock
values leave different user rows and different centro rows (the `createdAt` fields differ). -/
theorem createdAt_depends_on_the_clock :
    (∀ c, (Env.ok 10 20).rejects c = false) ∧ (∀ c, (Env.ok 30 40).rejects c = false) ∧
    (finalStore (Env.ok 10 20) Store.empty).user ≠
      (finalStore (Env.ok 30 40) Store.empty).user ∧
    (finalStore (Env.ok 10 20) Store.empty).centro ≠
      (finalStore (Env.ok 30 40) Store.empty).centro := by
  refine ⟨fun _ => rfl, fun _ => rfl, ?_, ?_⟩
  · rw [finalStore_empty_of_ok _ (fun _ => rfl), finalStore_empty_of_ok _ (fun _ => rfl)]
    simp [seededStore, Env.ok, adminUserData]
  · rw [finalStore_empty_of_ok _ (fun _ => rfl), finalStore_empty_of_ok _ (fun _ => rfl)]
    simp [seededStore, Env.ok, centroData]

/-- C8, amended: two successful runs from the empty store, against the same generator of
identifiers, leave stores that agree in every field except `createdAt` of the user row and
of the centro row; those two fields hold what `new Date()` returned during the run. -/
theorem runs_agree_up_to_createdAt (env1 env2 : Env) (h1 : ∀ c, env1.rejects c = false)
    (h2 : ∀ c, env2.rejects c = false) (hg : env1.genId = env2.genId) :
    (finalStore env1 Store.empty).eraseCreatedAt =
      (finalStore env2 Store.empty).eraseCreatedAt ∧
    (finalStore env1 Store.empty).user.map (fun r => r.data.createdAt) = [env1.dateNow 0] ∧
    (finalStore env1 Store.empty).centro.map (fun r => r.data.createdAt) =
      [env1.dateNow 1] ∧
    ((env1.dateNow 0 = env2.dateNow 0 ∧ env1.dateNow 1 = env2.dateNow 1) →
      finalStore env1 Store.empty = finalStore env2 Store.empty) := by
  rw [finalStore_empty_of_ok env1 h1, finalStore_empty_of_ok env2 h2]
  refine ⟨?_, rfl, rfl, ?_⟩
  · simp [Store.eraseCreatedAt, seededStore, hg, adminUserData, centroData]
  · rintro ⟨e0, e1⟩
    simp [seededStore, hg, e0, e1]

/-- Instance of C8 as amended: two runs that read different clock values. -/
theorem runs_agree_up_to_createdAt_witness :
    (∀ c, (Env.ok 10 20).rejects c = false) ∧ (∀ c, (Env.ok 30 40).rejects c = false) ∧
    (Env.ok 10 20).genId = (Env.ok 30 40).genId ∧
    (finalStore (Env.ok 10 20) Store.empty).eraseCreatedAt =
      (finalStore (Env.ok 30 40) Store.empty).eraseCreatedAt :=
  ⟨fun _ => rfl, fun _ => rfl, rfl,
    (runs_agree_up_to_createdAt (Env.ok 10 20) (Env.ok 30 40) (fun _ => rfl) (fun _ => rfl)
      rfl).1⟩

/-- C9: when the upsert at call site `c` rejects and no upsert of an earlier step does, the
run exits with status 1 and every table written by an earlier step is exactly what the same
run would have left had nothing rejected: the rows created by the completed steps stay in
the store as created; nothing is rolled back. -/
theorem completed_steps_are_kept (env : Env) (s : Store) (c : Call)
    (h : env.rejects c = true)
    (hfirst : ∀ c0 : Call, c0.step < c.step → env.rejects c0 = false) :
    runStatus env s = 1 ∧
    (∀ c0 : Call, c0.step < c.step →
      c0.sameTable (finalStore env s) (finalStore env.succeeding s)) := by
  have ha : anyRejects env = true := (anyRejects_iff env).2 ⟨c, h⟩
  have hs : anyRejects env.succeeding = false :=
    (anyRejects_false_iff _).2 fun _ => rfl
  refine ⟨by rw [runStatus_eq, ha]; rfl, ?_⟩
  intro c0 hlt
  have r1 := hfirst .adminUser
  have r2 := hfirst .centro
  have r3 := hfirst .quarto001
  have r4 := hfirst .quarto002
  have r5 := hfirst .dormitorio001
  have r6 := hfirst .trilhaEcologica
  have r7 := hfirst .observacaoAves
  have r8 := hfirst .pesquisaCientifica
  have e3 := batchRejects_accommodation env (centroIdOf env s)
  have e4 := batchRejects_activityType env
  have hcid : centroIdOf env.succeeding s = centroIdOf env s := rfl
  have hgen : env.succeeding.genId = env.genId := rfl
  have hnow : env.succeeding.dateNow = env.dateNow := rfl
  have hrej : ∀ c1, env.succeeding.rejects c1 = false := fun _ => rfl
  have l3 : landing env.succeeding (accommodationBatch (centroIdOf env s)) =
      accommodationBatch (centroIdOf env s) := landing_of_ok _ _ (by
        rw [batchRejects_accommodation]; rfl)
  have l4 : landing env.succeeding activityTypeBatch = activityTypeBatch :=
    landing_of_ok _ _ (by rw [batchRejects_activityType]; rfl)
  cases c <;> cases c0 <;> simp only [Call.step] at hlt r1 r2 r3 r4 r5 r6 r7 r8 <;>
    first
      | omega
      | simp_all [Call.sameTable, finalStore_user, finalStore_centro,
          finalStore_accommodation, finalStore_activityType, landing,
          batchRejects_accommodation, batchRejects_activityType]

/-- Instance of C9: the system setting upsert rejects on the empty store; the store still
holds 1 user, 1 centro, 3 accommodations and 3 activity types. -/
theorem completed_steps_are_kept_witness :
    (Env.failing .bookingSettings).rejects .bookingSettings = true ∧
    (∀ c0 : Call, c0.step < Call.bookingSettings.step →
      (Env.failing .bookingSettings).rejects c0 = false) ∧
    runStatus (Env.failing .bookingSettings) Store.empty = 1 ∧
    (finalStore (Env.failing .bookingSettings) Store.empty).user.length = 1 ∧
    (finalStore (Env.failing .bookingSettings) Store.empty).centro.length = 1 ∧
    (finalStore (Env.failing .bookingSettings) Store.empty).accommodation.length = 3 ∧
    (finalStore (Env.failing .bookingSettings) Store.empty).activityType.length = 3 :=
  have hfirst : ∀ c0 : Call, c0.step < Call.bookingSettings.step →
      (Env.failing .bookingSettings).rejects c0 = false := by
    intro c0 h
    cases c0 <;> first | rfl | exact absurd h (by decide)
  have hkept := completed_steps_are_kept (Env.failing .bookingSettings) Store.empty
    .bookingSettings rfl hfirst
  have hok := finalStore_empty_of_ok (Env.failing .bookingSettings).succeeding (fun _ => rfl)
  have hu : (finalStore (Env.failing .bookingSettings) Store.empty).user =
      (finalStore (Env.failing .bookingSettings).succeeding Store.empty).user :=
    hkept.2 .adminUser (by decide)
  have hc : (finalStore (Env.failing .bookingSettings) Store.empty).centro =
      (finalStore (Env.failing .bookingSettings).succeeding Store.empty).centro :=
    hkept.2 .centro (by decide)
  have hq : (finalStore (Env.failing .bookingSettings) Store.empty).accommodation =
      (finalStore (Env.failing .bookingSettings).succeeding Store.empty).accommodation :=
    hkept.2 .quarto001 (by decide)
  have ht : (finalStore (Env.failing .bookingSettings) Store.empty).activityType =
      (finalStore (Env.failing .bookingSettings).succeeding Store.empty).activityType :=
    hkept.2 .trilhaEcologica (by decide)
  ⟨rfl, hfirst, hkept.1, by rw [hu, hok]; rfl, by rw [hc, hok]; rfl, by rw [hq, hok]; rfl,
    by rw [ht, hok]; rfl⟩

theorem centro_returned_before_accommodations (env : Env) (s : Store) (c : Call)
    (k : String) (v : Accommodation)
    (h : Event.call c (.accommodation k v) ∈ runTrace env s) :
    v.centroId = (centroFound env s).id ∧
      Event.returned .centro (.centro (centroFound env s)) ∈ runTrace env s := by
  have hmem : Event.call c (.accommodation k v) ∈ upsertEvents (runTrace env s) :=
    List.mem_filter.2 ⟨h, rfl⟩
  have hsub : ∀ e ∈ upsertEvents (runTrace env s), e ∈ runTrace env s := fun e he =>
    (List.mem_filter.1 he).1
  rw [script_upsertEvents] at hmem
  suffices hs : v.centroId = (centroFound env s).id ∧
      Event.returned .centro (.centro (centroFound env s)) ∈
        (happyPath env s).take (upsertCount env) by
    exact ⟨hs.1, hsub _ (by rw [script_upsertEvents]; exact hs.2)⟩
  unfold upsertCount at hmem ⊢
  split_ifs at hmem ⊢ <;>
    simp [happyPath, accommodationBatch, activityTypeBatch, returnedEvents, prismaAccommodation,
      prismaActivityType] at hmem ⊢ <;>
    rcases hmem with ⟨_, _, rfl⟩ | ⟨_, _, rfl⟩ | ⟨_, _, rfl⟩ <;>
    simp [quarto001Data, quarto002Data, dormitorio001Data]

/-- C10: in every run the upserts are issued in source order (user, centro, the three
accommodations, the three activity types, the system setting) and stop at the first step in
which one rejects; the calls and returns of the run are an initial segment of the sequence
`happyPath`, in which each step begins only after the previous one has returned, and they
are the whole sequence when nothing rejects; every accommodation call carries as `centroId`
the identifier of the record the centro upsert returned (created or found), and that return
is in the trace. -/
theorem steps_run_in_source_order (env : Env) (s : Store) :
    issued (runTrace env s) = issuedCalls env ∧
    issued (runTrace env s) <+: Call.all ∧
    upsertEvents (runTrace env s) = (happyPath env s).take (upsertCount env) ∧
    upsertEvents (runTrace env s) <+: happyPath env s ∧
    ((∀ c, env.rejects c = false) → upsertEvents (runTrace env s) = happyPath env s) ∧
    (∀ (c : Call) (k : String) (v : Accommodation),
      Event.call c (.accommodation k v) ∈ runTrace env s →
        v.centroId = (centroFound env s).id ∧
          Event.returned .centro (.centro (centroFound env s)) ∈ runTrace env s) := by
  refine ⟨script_issued env s, ?_, script_upsertEvents env s, ?_, ?_,
    centro_returned_before_accommodations env s⟩
  · rw [script_issued]
    unfold issuedCalls Call.all
    split_ifs <;> simp
  · rw [script_upsertEvents]
    exact List.take_prefix _ _
  · intro h
    rw [script_upsertEvents]
    simp [upsertCount, h, happyPath, accommodationBatch, activityTypeBatch, returnedEvents]

end Seed
